import Mathlib

/-
Shallow embedding of the SortaSound 6-operator FM synthesizer engine
(src/include/fm/fm.hpp, src/src/fm/fm.cpp, src/src/fm/algorithms.cpp).
C++ doubles are modelled as exact real numbers; the library functions
sin, tanh, pow and round are modelled by Real.sin, Real.tanh, Real.rpow
and the Mathlib round function.  C++ int is modelled by Int; int16_t
casts are modelled by truncation toward zero on the clamped value.
-/

namespace toybasic

noncomputable section

/-- Constants::PI (include/fm/fm.hpp). -/
def PI : ℝ := Real.pi

/-- Constants::TWO_PI. -/
def TWO_PI : ℝ := 2 * Real.pi

/-- Constants::FREQ_PRECISION_SCALE = 2^22. -/
def FREQ_PRECISION_SCALE : ℝ := 4194304

/-- Constants::FREQ_PRECISION_INV = 1 / 2^22. -/
def FREQ_PRECISION_INV : ℝ := 1 / FREQ_PRECISION_SCALE

/-- Constants::MAX_VOLUME. -/
def MAX_VOLUME : ℝ := 1

/-- Constants::MIN_VOLUME. -/
def MIN_VOLUME : ℝ := 0

/-- Constants::MIN_AMPLITUDE. -/
def MIN_AMPLITUDE : ℝ := 0

/-- Constants::MAX_AMPLITUDE. -/
def MAX_AMPLITUDE : ℝ := 1

/-- Constants::MIN_ENVELOPE_TIME. -/
def MIN_ENVELOPE_TIME : ℝ := 0.001

/-- Constants::MIN_EFFECT_AMOUNT. -/
def MIN_EFFECT_AMOUNT : ℝ := 0

/-- Constants::MAX_EFFECT_AMOUNT. -/
def MAX_EFFECT_AMOUNT : ℝ := 1

/-- Constants::DISTORTION_GAIN_MULTIPLIER. -/
def DISTORTION_GAIN_MULTIPLIER : ℝ := 10

/-- Constants::CHORUS_FREQUENCY. -/
def CHORUS_FREQUENCY : ℝ := 0.5

/-- Constants::CHORUS_DEPTH. -/
def CHORUS_DEPTH : ℝ := 0.1

/-- Constants::REVERB_GAIN. -/
def REVERB_GAIN : ℝ := 0.3

/-- Constants::PAN_LEFT. -/
def PAN_LEFT : ℝ := -0.5

/-- Constants::PAN_RIGHT. -/
def PAN_RIGHT : ℝ := 0.5

/-- Constants::PAN_SCALE. -/
def PAN_SCALE : ℝ := 0.5

/-- Constants::AUDIO_SCALE. -/
def AUDIO_SCALE : ℝ := 8191

/-- Constants::AUDIO_MAX_VALUE. -/
def AUDIO_MAX_VALUE : ℤ := 8191

/-- Constants::AUDIO_MIN_VALUE. -/
def AUDIO_MIN_VALUE : ℤ := -8192

/-- Constants::MIDI_A4_NOTE. -/
def MIDI_A4_NOTE : ℤ := 69

/-- Constants::MIDI_A4_FREQUENCY. -/
def MIDI_A4_FREQUENCY : ℝ := 440

/-- Constants::MIDI_NOTES_PER_OCTAVE (an int in the source). -/
def MIDI_NOTES_PER_OCTAVE : ℤ := 12

/-- WaveformType (include/fm/fm.hpp). -/
inductive WaveformType where
  | SINE
  | SAWTOOTH
  | SQUARE
  | TRIANGLE
  deriving DecidableEq

/-- EnvelopeState (include/fm/fm.hpp).  The C++ Operator stores this enum
as an int field; the int round trips through static_cast, so the enum
itself is the faithful model. -/
inductive EnvelopeState where
  | OFF
  | ATTACK
  | DECAY
  | SUSTAIN
  | RELEASE
  deriving DecidableEq

/-- FMSynthesizer::Operator (include/fm/fm.hpp). -/
structure Operator where
  frequency : ℝ
  amplitude : ℝ
  modulationIndex : ℝ
  waveform : WaveformType
  attack : ℝ
  decay : ℝ
  sustain : ℝ
  release : ℝ
  envelopeState : EnvelopeState
  envelopeLevel : ℝ
  envelopeTime : ℝ
  phaseAccumulator : ℝ
  phaseIncrement : ℝ
  pitchBend : ℝ
  modulationWheel : ℝ
  velocity : ℝ

/-- FMSynthesizer::Voice (include/fm/fm.hpp).  The channel field is an
int in the source but is only ever assigned 0 (by noteOn) and is used
to index the 8-entry channel array, so it is modelled as Fin 8. -/
structure Voice where
  operators : Fin 6 → Operator
  active : Bool
  note : ℤ
  velocity : ℝ
  channel : Fin 8

/-- FMSynthesizer::Channel (include/fm/fm.hpp). -/
structure Channel where
  active : Bool
  algorithm : ℤ
  masterVolume : ℝ
  pitchBend : ℝ
  modulationWheel : ℝ

/-- FMSynthesizer::PresetConfig (include/fm/fm.hpp). -/
structure PresetConfig where
  frequencies : Fin 6 → ℝ
  amplitudes : Fin 6 → ℝ
  modulationIndices : Fin 6 → ℝ
  waveforms : Fin 6 → WaveformType
  attacks : Fin 6 → ℝ
  decays : Fin 6 → ℝ
  sustains : Fin 6 → ℝ
  releases : Fin 6 → ℝ

/-- The FMSynthesizer state that the synthesis pipeline and the
control-plane API read and write (include/fm/fm.hpp): the fixed pools
of 16 voices and 8 channels, the sample rate and derived time step, the
master volume, the three effect amounts and the current preset template.
The per-instance copies of the Constants values are omitted: the engine
functions modelled here read the Constants directly in the source. -/
structure Synth where
  voices : Fin 16 → Voice
  channels : Fin 8 → Channel
  sampleRate : ℤ
  masterVolume : ℝ
  timeStep : ℝ
  reverbAmount : ℝ
  chorusAmount : ℝ
  distortionAmount : ℝ
  currentPreset : PresetConfig

/-- Default Operator field values (include/fm/fm.hpp in-class initializers). -/
def defaultOperator : Operator where
  frequency := 440
  amplitude := 0.5
  modulationIndex := 1
  waveform := WaveformType.SINE
  attack := 0.01
  decay := 0.1
  sustain := 0.7
  release := 0.3
  envelopeState := EnvelopeState.OFF
  envelopeLevel := 0
  envelopeTime := 0
  phaseAccumulator := 0
  phaseIncrement := 0
  pitchBend := 1
  modulationWheel := 0
  velocity := 1

/-- Default Voice field values (include/fm/fm.hpp in-class initializers). -/
def defaultVoice : Voice where
  operators := fun _ => defaultOperator
  active := false
  note := -1
  velocity := 1
  channel := 0

/-- Default Channel field values (include/fm/fm.hpp in-class initializers). -/
def defaultChannel : Channel where
  active := false
  algorithm := 0
  masterVolume := 1
  pitchBend := 1
  modulationWheel := 0

/-- The preset template written by the FMSynthesizer constructor loop
(fm.cpp lines 78-87). -/
def constructorPreset : PresetConfig where
  frequencies := fun _ => 1
  amplitudes := fun _ => 0.5
  modulationIndices := fun _ => 0
  waveforms := fun _ => WaveformType.SINE
  attacks := fun _ => 0.01
  decays := fun _ => 0.1
  sustains := fun _ => 0.7
  releases := fun _ => 0.3

/-- FMSynthesizer::FMSynthesizer(sampleRate): the engine state after
construction (fm.cpp lines 38-90; audio-device setup is external). -/
def mkSynth (sampleRate : ℤ) : Synth where
  voices := fun _ => defaultVoice
  channels := fun _ => defaultChannel
  sampleRate := sampleRate
  masterVolume := MAX_VOLUME
  timeStep := 1 / (sampleRate : ℝ)
  reverbAmount := MIN_EFFECT_AMOUNT
  chorusAmount := MIN_EFFECT_AMOUNT
  distortionAmount := MIN_EFFECT_AMOUNT
  currentPreset := constructorPreset

/-- FMSynthesizer::noteToFrequency (fm.cpp lines 712-714).  Both
operands of the inner division are C++ ints, so the exponent is the
integer quotient truncated toward zero, modelled by Int.tdiv. -/
def noteToFrequency (note : ℤ) : ℝ :=
  MIDI_A4_FREQUENCY * Real.rpow 2 ((Int.tdiv (note - MIDI_A4_NOTE) MIDI_NOTES_PER_OCTAVE : ℤ) : ℝ)

/-- FMSynthesizer::noteToFrequency22Bit (fm.cpp lines 725-732). -/
def noteToFrequency22Bit (note : ℤ) : ℝ :=
  let frequency := MIDI_A4_FREQUENCY * Real.rpow 2 ((Int.tdiv (note - MIDI_A4_NOTE) MIDI_NOTES_PER_OCTAVE : ℤ) : ℝ)
  let freqScaled := frequency * FREQ_PRECISION_SCALE
  let freqRounded := (round freqScaled : ℝ) * FREQ_PRECISION_INV
  freqRounded

/-- FMSynthesizer::calculatePhaseIncrement22Bit (fm.cpp lines 743-750),
with the sampleRate member passed explicitly. -/
def calculatePhaseIncrement22Bit (sampleRate : ℤ) (frequency : ℝ) : ℝ :=
  let freqScaled := frequency * FREQ_PRECISION_SCALE
  let freqRounded := (round freqScaled : ℝ) * FREQ_PRECISION_INV
  let phaseIncrement := TWO_PI * freqRounded / (sampleRate : ℝ)
  phaseIncrement

/-- FMSynthesizer::updateOperatorPhase22Bit (fm.cpp lines 752-762);
updateOperatorPhase (line 613) forwards to it. -/
def updateOperatorPhase22Bit (sampleRate : ℤ) (op : Operator) : Operator :=
  let phaseInc := calculatePhaseIncrement22Bit sampleRate op.frequency
  let pitchBendPhaseInc := phaseInc * op.pitchBend
  let acc := op.phaseAccumulator + pitchBendPhaseInc
  { op with phaseAccumulator := if acc ≥ TWO_PI then acc - TWO_PI else acc }

/-- FMSynthesizer::updateEnvelope (fm.cpp lines 617-655), with the
timeStep member passed explicitly.  envelopeTime is incremented first;
each state branch then recomputes envelopeLevel and possibly
transitions. -/
def updateEnvelope (timeStep : ℝ) (op : Operator) : Operator :=
  let t := op.envelopeTime + timeStep
  match op.envelopeState with
  | EnvelopeState.ATTACK =>
      let level := t / op.attack
      if level ≥ MAX_VOLUME then
        { op with envelopeTime := 0, envelopeLevel := MAX_VOLUME,
                  envelopeState := EnvelopeState.DECAY }
      else
        { op with envelopeTime := t, envelopeLevel := level }
  | EnvelopeState.DECAY =>
      let level := MAX_VOLUME - (t / op.decay) * (MAX_VOLUME - op.sustain)
      if level ≤ op.sustain then
        { op with envelopeTime := t, envelopeLevel := op.sustain,
                  envelopeState := EnvelopeState.SUSTAIN }
      else
        { op with envelopeTime := t, envelopeLevel := level }
  | EnvelopeState.SUSTAIN =>
      { op with envelopeTime := t, envelopeLevel := op.sustain }
  | EnvelopeState.RELEASE =>
      let level := op.sustain * (MAX_VOLUME - t / op.release)
      if level ≤ MIN_VOLUME ∨ t ≥ op.release then
        { op with envelopeTime := t, envelopeLevel := MIN_VOLUME,
                  envelopeState := EnvelopeState.OFF }
      else
        { op with envelopeTime := t, envelopeLevel := level }
  | EnvelopeState.OFF =>
      { op with envelopeTime := t, envelopeLevel := MIN_VOLUME }

/-- The waveform switch inside FMSynthesizer::generateOperatorOutput
(fm.cpp lines 663-680): maps a waveform shape and an effective phase to
the raw oscillator value. -/
def waveformValue (w : WaveformType) (phase : ℝ) : ℝ :=
  match w with
  | WaveformType.SINE => Real.sin phase
  | WaveformType.SAWTOOTH => 2 * (phase / TWO_PI) - 1
  | WaveformType.SQUARE => if phase < PI then 1 else -1
  | WaveformType.TRIANGLE =>
      if phase < PI then 2 * (phase / PI) - 1 else 3 - 2 * (phase / PI)

/-- FMSynthesizer::generateOperatorOutput (fm.cpp lines 657-683). -/
def generateOperatorOutput (op : Operator) (modulation : ℝ) : ℝ :=
  let modScaled := modulation * FREQ_PRECISION_SCALE
  let modRounded := (round modScaled : ℝ) * FREQ_PRECISION_INV
  let phase := op.phaseAccumulator + modRounded * op.modulationIndex
  waveformValue op.waveform phase * op.amplitude * op.envelopeLevel * op.velocity

/-- FMSynthesizer::processAlgorithm0 (algorithms.cpp lines 34-43):
serial chain 6-5-4-3-2-1, carrier 1. -/
def processAlgorithm0 (voice : Voice) : ℝ :=
  let ops := voice.operators
  let mod6 := generateOperatorOutput (ops 5) 0
  let mod5 := generateOperatorOutput (ops 4) mod6
  let mod4 := generateOperatorOutput (ops 3) mod5
  let mod3 := generateOperatorOutput (ops 2) mod4
  let mod2 := generateOperatorOutput (ops 1) mod3
  generateOperatorOutput (ops 0) mod2

/-- FMSynthesizer::processAlgorithm1 (algorithms.cpp lines 55-64). -/
def processAlgorithm1 (voice : Voice) : ℝ :=
  let ops := voice.operators
  let mod5 := generateOperatorOutput (ops 4) 0
  let mod6 := generateOperatorOutput (ops 5) 0
  let mod4 := generateOperatorOutput (ops 3) (mod5 + mod6)
  let mod3 := generateOperatorOutput (ops 2) mod4
  let mod2 := generateOperatorOutput (ops 1) mod3
  generateOperatorOutput (ops 0) mod2

/-- FMSynthesizer::processAlgorithm2 (algorithms.cpp lines 76-86). -/
def processAlgorithm2 (voice : Voice) : ℝ :=
  let ops := voice.operators
  let mod6 := generateOperatorOutput (ops 5) 0
  let mod5 := generateOperatorOutput (ops 4) mod6
  let mod4 := generateOperatorOutput (ops 3) mod5
  let mod3 := generateOperatorOutput (ops 2) mod4
  let mod2 := generateOperatorOutput (ops 1) mod3
  let mod1 := generateOperatorOutput (ops 0) mod6
  mod2 + mod1

/-- FMSynthesizer::processAlgorithm3 (algorithms.cpp lines 98-110). -/
def processAlgorithm3 (voice : Voice) : ℝ :=
  let ops := voice.operators
  let mod6 := generateOperatorOutput (ops 5) 0
  let mod5 := generateOperatorOutput (ops 4) mod6
  let mod4 := generateOperatorOutput (ops 3) mod5
  let mod3 := generateOperatorOutput (ops 2) mod4
  let mod2 := generateOperatorOutput (ops 1) mod6
  let mod1 := generateOperatorOutput (ops 0) mod2
  mod3 + mod1

/-- FMSynthesizer::processAlgorithm4 (algorithms.cpp lines 122-134). -/
def processAlgorithm4 (voice : Voice) : ℝ :=
  let ops := voice.operators
  let mod6 := generateOperatorOutput (ops 5) 0
  let mod5 := generateOperatorOutput (ops 4) mod6
  let mod4 := generateOperatorOutput (ops 3) mod5
  let mod3 := generateOperatorOutput (ops 2) mod6
  let mod2 := generateOperatorOutput (ops 1) mod3
  let mod1 := generateOperatorOutput (ops 0) mod2
  mod4 + mod1

/-- FMSynthesizer::processAlgorithm5 (algorithms.cpp lines 146-158). -/
def processAlgorithm5 (voice : Voice) : ℝ :=
  let ops := voice.operators
  let mod6 := generateOperatorOutput (ops 5) 0
  let mod5 := generateOperatorOutput (ops 4) mod6
  let mod4 := generateOperatorOutput (ops 3) mod6
  let mod3 := generateOperatorOutput (ops 2) mod4
  let mod2 := generateOperatorOutput (ops 1) mod3
  let mod1 := generateOperatorOutput (ops 0) mod2
  mod5 + mod1

/-- FMSynthesizer::processAlgorithm6 (algorithms.cpp lines 171-184). -/
def processAlgorithm6 (voice : Voice) : ℝ :=
  let ops := voice.operators
  let mod6 := generateOperatorOutput (ops 5) 0
  let mod5 := generateOperatorOutput (ops 4) mod6
  let mod4 := generateOperatorOutput (ops 3) mod5
  let mod3 := generateOperatorOutput (ops 2) mod6
  let mod2 := generateOperatorOutput (ops 1) mod6
  let mod1 := generateOperatorOutput (ops 0) mod2
  mod4 + mod3 + mod1

/-- FMSynthesizer::processAlgorithm7 (algorithms.cpp lines 198-210). -/
def processAlgorithm7 (voice : Voice) : ℝ :=
  let ops := voice.operators
  let mod6 := generateOperatorOutput (ops 5) 0
  let mod5 := generateOperatorOutput (ops 4) mod6
  let mod4 := generateOperatorOutput (ops 3) mod6
  let mod3 := generateOperatorOutput (ops 2) mod6
  let mod2 := generateOperatorOutput (ops 1) mod6
  let mod1 := generateOperatorOutput (ops 0) mod2
  mod5 + mod4 + mod3 + mod1

/-- FMSynthesizer::processAlgorithm8 (algorithms.cpp lines 224-235). -/
def processAlgorithm8 (voice : Voice) : ℝ :=
  let ops := voice.operators
  let mod6 := generateOperatorOutput (ops 5) 0
  let mod5 := generateOperatorOutput (ops 4) mod6
  let _mod3 := generateOperatorOutput (ops 2) mod5
  let mod4 := generateOperatorOutput (ops 3) 0
  let mod2 := generateOperatorOutput (ops 1) 0
  generateOperatorOutput (ops 0) (mod4 + mod2)

/-- FMSynthesizer::processAlgorithm9 (algorithms.cpp lines 248-258). -/
def processAlgorithm9 (voice : Voice) : ℝ :=
  let ops := voice.operators
  let mod5 := generateOperatorOutput (ops 4) 0
  let mod6 := generateOperatorOutput (ops 5) 0
  let mod4 := generateOperatorOutput (ops 3) (mod5 + mod6)
  let mod3 := generateOperatorOutput (ops 2) 0
  generateOperatorOutput (ops 0) (mod4 + mod3)

/-- FMSynthesizer::processAlgorithm10 (algorithms.cpp lines 271-282). -/
def processAlgorithm10 (voice : Voice) : ℝ :=
  let ops := voice.operators
  let mod4 := generateOperatorOutput (ops 3) 0
  let mod5 := generateOperatorOutput (ops 4) 0
  let mod6 := generateOperatorOutput (ops 5) 0
  let mod3 := generateOperatorOutput (ops 2) (mod4 + mod5 + mod6)
  let mod2 := generateOperatorOutput (ops 1) 0
  generateOperatorOutput (ops 0) (mod3 + mod2)

/-- FMSynthesizer::processAlgorithm11 (algorithms.cpp lines 295-306),
a documented duplicate of processAlgorithm10. -/
def processAlgorithm11 (voice : Voice) : ℝ :=
  let ops := voice.operators
  let mod4 := generateOperatorOutput (ops 3) 0
  let mod5 := generateOperatorOutput (ops 4) 0
  let mod6 := generateOperatorOutput (ops 5) 0
  let mod3 := generateOperatorOutput (ops 2) (mod4 + mod5 + mod6)
  let mod2 := generateOperatorOutput (ops 1) 0
  generateOperatorOutput (ops 0) (mod3 + mod2)

/-- FMSynthesizer::processAlgorithm12 (algorithms.cpp lines 320-331). -/
def processAlgorithm12 (voice : Voice) : ℝ :=
  let ops := voice.operators
  let mod5 := generateOperatorOutput (ops 4) 0
  let mod6 := generateOperatorOutput (ops 5) 0
  let mod2 := generateOperatorOutput (ops 1) (mod5 + mod6)
  let mod4 := generateOperatorOutput (ops 3) 0
  let mod3 := generateOperatorOutput (ops 2) 0
  generateOperatorOutput (ops 0) (mod2 + mod4 + mod3)

/-- FMSynthesizer::processAlgorithm13 (algorithms.cpp lines 345-356),
a documented duplicate of processAlgorithm12. -/
def processAlgorithm13 (voice : Voice) : ℝ :=
  let ops := voice.operators
  let mod5 := generateOperatorOutput (ops 4) 0
  let mod6 := generateOperatorOutput (ops 5) 0
  let mod2 := generateOperatorOutput (ops 1) (mod5 + mod6)
  let mod4 := generateOperatorOutput (ops 3) 0
  let mod3 := generateOperatorOutput (ops 2) 0
  generateOperatorOutput (ops 0) (mod2 + mod4 + mod3)

/-- FMSynthesizer::processAlgorithm14 (algorithms.cpp lines 370-381). -/
def processAlgorithm14 (voice : Voice) : ℝ :=
  let ops := voice.operators
  let mod4 := generateOperatorOutput (ops 3) 0
  let mod6 := generateOperatorOutput (ops 5) 0
  let mod3 := generateOperatorOutput (ops 2) (mod4 + mod6)
  let mod2 := generateOperatorOutput (ops 1) 0
  let mod5 := generateOperatorOutput (ops 4) 0
  generateOperatorOutput (ops 0) (mod3 + mod2 + mod5)

/-- FMSynthesizer::processAlgorithm15 (algorithms.cpp lines 395-406),
a documented duplicate of processAlgorithm14. -/
def processAlgorithm15 (voice : Voice) : ℝ :=
  let ops := voice.operators
  let mod4 := generateOperatorOutput (ops 3) 0
  let mod6 := generateOperatorOutput (ops 5) 0
  let mod3 := generateOperatorOutput (ops 2) (mod4 + mod6)
  let mod2 := generateOperatorOutput (ops 1) 0
  let mod5 := generateOperatorOutput (ops 4) 0
  generateOperatorOutput (ops 0) (mod3 + mod2 + mod5)

/-- FMSynthesizer::processAlgorithm16 (algorithms.cpp lines 420-431). -/
def processAlgorithm16 (voice : Voice) : ℝ :=
  let ops := voice.operators
  let mod5 := generateOperatorOutput (ops 4) 0
  let mod6 := generateOperatorOutput (ops 5) 0
  let mod4 := generateOperatorOutput (ops 3) (mod5 + mod6)
  let mod3 := generateOperatorOutput (ops 2) 0
  let mod2 := generateOperatorOutput (ops 1) 0
  generateOperatorOutput (ops 0) (mod4 + mod3 + mod2)

/-- FMSynthesizer::processAlgorithm17 (algorithms.cpp lines 444-454).
The output of operator 1 is computed and discarded; only operator 5
(index 4) is returned. -/
def processAlgorithm17 (voice : Voice) : ℝ :=
  let ops := voice.operators
  let mod2 := generateOperatorOutput (ops 1) 0
  let mod6 := generateOperatorOutput (ops 5) 0
  let mod4 := generateOperatorOutput (ops 3) (mod2 + mod6)
  let _mod1 := generateOperatorOutput (ops 0) 0
  generateOperatorOutput (ops 4) mod4

/-- FMSynthesizer::processAlgorithm18 (algorithms.cpp lines 467-478). -/
def processAlgorithm18 (voice : Voice) : ℝ :=
  let ops := voice.operators
  let mod3 := generateOperatorOutput (ops 2) 0
  let mod5 := generateOperatorOutput (ops 4) 0
  let mod6 := generateOperatorOutput (ops 5) 0
  let mod2 := generateOperatorOutput (ops 1) (mod3 + mod5 + mod6)
  let _mod1 := generateOperatorOutput (ops 0) 0
  generateOperatorOutput (ops 3) mod2

/-- FMSynthesizer::processAlgorithm19 (algorithms.cpp lines 492-503). -/
def processAlgorithm19 (voice : Voice) : ℝ :=
  let ops := voice.operators
  let mod3 := generateOperatorOutput (ops 2) 0
  let mod6 := generateOperatorOutput (ops 5) 0
  let mod2 := generateOperatorOutput (ops 1) (mod3 + mod6)
  let mod5 := generateOperatorOutput (ops 4) 0
  let _mod1 := generateOperatorOutput (ops 0) 0
  generateOperatorOutput (ops 3) (mod2 + mod5)

/-- FMSynthesizer::processAlgorithm20 (algorithms.cpp lines 517-528). -/
def processAlgorithm20 (voice : Voice) : ℝ :=
  let ops := voice.operators
  let mod2 := generateOperatorOutput (ops 1) 0
  let mod6 := generateOperatorOutput (ops 5) 0
  let mod3 := generateOperatorOutput (ops 2) (mod2 + mod6)
  let mod5 := generateOperatorOutput (ops 4) 0
  let _mod1 := generateOperatorOutput (ops 0) 0
  generateOperatorOutput (ops 3) (mod3 + mod5)

/-- FMSynthesizer::processAlgorithm21 (algorithms.cpp lines 542-553),
a documented duplicate of processAlgorithm20. -/
def processAlgorithm21 (voice : Voice) : ℝ :=
  let ops := voice.operators
  let mod2 := generateOperatorOutput (ops 1) 0
  let mod6 := generateOperatorOutput (ops 5) 0
  let mod3 := generateOperatorOutput (ops 2) (mod2 + mod6)
  let mod5 := generateOperatorOutput (ops 4) 0
  let _mod1 := generateOperatorOutput (ops 0) 0
  generateOperatorOutput (ops 3) (mod3 + mod5)

/-- FMSynthesizer::processAlgorithm22 (algorithms.cpp lines 564-574):
operators 1-5 all modulate operator 6, the only carrier. -/
def processAlgorithm22 (voice : Voice) : ℝ :=
  let ops := voice.operators
  let mod1 := generateOperatorOutput (ops 0) 0
  let mod2 := generateOperatorOutput (ops 1) 0
  let mod3 := generateOperatorOutput (ops 2) 0
  let mod4 := generateOperatorOutput (ops 3) 0
  let mod5 := generateOperatorOutput (ops 4) 0
  generateOperatorOutput (ops 5) (mod1 + mod2 + mod3 + mod4 + mod5)

/-- FMSynthesizer::processAlgorithm23 (algorithms.cpp lines 585-595),
a documented duplicate of processAlgorithm22. -/
def processAlgorithm23 (voice : Voice) : ℝ :=
  let ops := voice.operators
  let mod1 := generateOperatorOutput (ops 0) 0
  let mod2 := generateOperatorOutput (ops 1) 0
  let mod3 := generateOperatorOutput (ops 2) 0
  let mod4 := generateOperatorOutput (ops 3) 0
  let mod5 := generateOperatorOutput (ops 4) 0
  generateOperatorOutput (ops 5) (mod1 + mod2 + mod3 + mod4 + mod5)

/-- FMSynthesizer::processAlgorithm24 (algorithms.cpp lines 608-621). -/
def processAlgorithm24 (voice : Voice) : ℝ :=
  let ops := voice.operators
  let mod3 := generateOperatorOutput (ops 2) 0
  let mod5 := generateOperatorOutput (ops 4) 0
  let mod6 := generateOperatorOutput (ops 5) 0
  let mod1 := generateOperatorOutput (ops 0) 0
  let out2 := generateOperatorOutput (ops 1) mod1
  let out4 := generateOperatorOutput (ops 3) (mod3 + mod5 + mod6)
  out2 + out4

/-- FMSynthesizer::processAlgorithm25 (algorithms.cpp lines 634-647),
a documented duplicate of processAlgorithm24. -/
def processAlgorithm25 (voice : Voice) : ℝ :=
  let ops := voice.operators
  let mod3 := generateOperatorOutput (ops 2) 0
  let mod5 := generateOperatorOutput (ops 4) 0
  let mod6 := generateOperatorOutput (ops 5) 0
  let mod1 := generateOperatorOutput (ops 0) 0
  let out2 := generateOperatorOutput (ops 1) mod1
  let out4 := generateOperatorOutput (ops 3) (mod3 + mod5 + mod6)
  out2 + out4

/-- FMSynthesizer::processAlgorithm26 (algorithms.cpp lines 661-673). -/
def processAlgorithm26 (voice : Voice) : ℝ :=
  let ops := voice.operators
  let mod1 := generateOperatorOutput (ops 0) 0
  let mod3 := generateOperatorOutput (ops 2) 0
  let mod6 := generateOperatorOutput (ops 5) 0
  let out2 := generateOperatorOutput (ops 1) (mod1 + mod3 + mod6)
  let out4 := generateOperatorOutput (ops 3) 0
  let out5 := generateOperatorOutput (ops 4) 0
  out2 + out4 + out5

/-- FMSynthesizer::processAlgorithm27 (algorithms.cpp lines 686-698). -/
def processAlgorithm27 (voice : Voice) : ℝ :=
  let ops := voice.operators
  let mod1 := generateOperatorOutput (ops 0) 0
  let mod2 := generateOperatorOutput (ops 1) 0
  let mod3 := generateOperatorOutput (ops 2) 0
  let mod5 := generateOperatorOutput (ops 4) 0
  let out4 := generateOperatorOutput (ops 3) (mod1 + mod2 + mod3 + mod5)
  let out6 := generateOperatorOutput (ops 5) 0
  out4 + out6

/-- FMSynthesizer::processAlgorithm28 (algorithms.cpp lines 711-723). -/
def processAlgorithm28 (voice : Voice) : ℝ :=
  let ops := voice.operators
  let mod1 := generateOperatorOutput (ops 0) 0
  let mod2 := generateOperatorOutput (ops 1) 0
  let mod3 := generateOperatorOutput (ops 2) 0
  let mod6 := generateOperatorOutput (ops 5) 0
  let out4 := generateOperatorOutput (ops 3) (mod1 + mod2 + mod3 + mod6)
  let out5 := generateOperatorOutput (ops 4) 0
  out4 + out5

/-- FMSynthesizer::processAlgorithm29 (algorithms.cpp lines 734-744),
a documented duplicate of processAlgorithm22. -/
def processAlgorithm29 (voice : Voice) : ℝ :=
  let ops := voice.operators
  let mod1 := generateOperatorOutput (ops 0) 0
  let mod2 := generateOperatorOutput (ops 1) 0
  let mod3 := generateOperatorOutput (ops 2) 0
  let mod4 := generateOperatorOutput (ops 3) 0
  let mod5 := generateOperatorOutput (ops 4) 0
  generateOperatorOutput (ops 5) (mod1 + mod2 + mod3 + mod4 + mod5)

/-- FMSynthesizer::processAlgorithm30 (algorithms.cpp lines 755-765),
a documented duplicate of processAlgorithm22. -/
def processAlgorithm30 (voice : Voice) : ℝ :=
  let ops := voice.operators
  let mod1 := generateOperatorOutput (ops 0) 0
  let mod2 := generateOperatorOutput (ops 1) 0
  let mod3 := generateOperatorOutput (ops 2) 0
  let mod4 := generateOperatorOutput (ops 3) 0
  let mod5 := generateOperatorOutput (ops 4) 0
  generateOperatorOutput (ops 5) (mod1 + mod2 + mod3 + mod4 + mod5)

/-- FMSynthesizer::processAlgorithm31 (algorithms.cpp lines 776-787):
all six operators are independent carriers. -/
def processAlgorithm31 (voice : Voice) : ℝ :=
  let ops := voice.operators
  let out1 := generateOperatorOutput (ops 0) 0
  let out2 := generateOperatorOutput (ops 1) 0
  let out3 := generateOperatorOutput (ops 2) 0
  let out4 := generateOperatorOutput (ops 3) 0
  let out5 := generateOperatorOutput (ops 4) 0
  let out6 := generateOperatorOutput (ops 5) 0
  out1 + out2 + out3 + out4 + out5 + out6

/-- The 32-way switch on channels_[channel].algorithm inside the
per-sample loop (fm.cpp lines 457-490), modelled as a chain of
index-equality tests.  The C++ switch has no default case, so
voiceOutput stays 0.0 for an out-of-range algorithm index. -/
def processAlgorithmSwitch (algorithm : ℤ) (voice : Voice) : ℝ :=
  if algorithm = 0 then processAlgorithm0 voice
  else if algorithm = 1 then processAlgorithm1 voice
  else if algorithm = 2 then processAlgorithm2 voice
  else if algorithm = 3 then processAlgorithm3 voice
  else if algorithm = 4 then processAlgorithm4 voice
  else if algorithm = 5 then processAlgorithm5 voice
  else if algorithm = 6 then processAlgorithm6 voice
  else if algorithm = 7 then processAlgorithm7 voice
  else if algorithm = 8 then processAlgorithm8 voice
  else if algorithm = 9 then processAlgorithm9 voice
  else if algorithm = 10 then processAlgorithm10 voice
  else if algorithm = 11 then processAlgorithm11 voice
  else if algorithm = 12 then processAlgorithm12 voice
  else if algorithm = 13 then processAlgorithm13 voice
  else if algorithm = 14 then processAlgorithm14 voice
  else if algorithm = 15 then processAlgorithm15 voice
  else if algorithm = 16 then processAlgorithm16 voice
  else if algorithm = 17 then processAlgorithm17 voice
  else if algorithm = 18 then processAlgorithm18 voice
  else if algorithm = 19 then processAlgorithm19 voice
  else if algorithm = 20 then processAlgorithm20 voice
  else if algorithm = 21 then processAlgorithm21 voice
  else if algorithm = 22 then processAlgorithm22 voice
  else if algorithm = 23 then processAlgorithm23 voice
  else if algorithm = 24 then processAlgorithm24 voice
  else if algorithm = 25 then processAlgorithm25 voice
  else if algorithm = 26 then processAlgorithm26 voice
  else if algorithm = 27 then processAlgorithm27 voice
  else if algorithm = 28 then processAlgorithm28 voice
  else if algorithm = 29 then processAlgorithm29 voice
  else if algorithm = 30 then processAlgorithm30 voice
  else if algorithm = 31 then processAlgorithm31 voice
  else 0

/-- FMSynthesizer::applyEffects (fm.cpp lines 685-700).  The channel
argument of the C++ method is unused there; the method reads the
distortion/chorus/reverb amounts, the Constants and timeStep_. -/
def applyEffects (s : Synth) (sample : ℝ) : ℝ :=
  let s1 := if s.distortionAmount > MIN_EFFECT_AMOUNT then
      Real.tanh (sample * (MAX_VOLUME + s.distortionAmount * DISTORTION_GAIN_MULTIPLIER))
    else sample
  let s2 := if s.chorusAmount > MIN_EFFECT_AMOUNT then
      s1 * (MAX_VOLUME + Real.sin (TWO_PI * CHORUS_FREQUENCY * s.timeStep) * s.chorusAmount * CHORUS_DEPTH)
    else s1
  if s.reverbAmount > MIN_EFFECT_AMOUNT then
    s2 * (MAX_VOLUME + s.reverbAmount * REVERB_GAIN)
  else s2

/-- The loop test `voices_[voice].operators[op].envelopeState != OFF for
some op` negated (fm.cpp lines 443-449): all six operators are OFF. -/
def allReleased (voice : Voice) : Prop :=
  ∀ op : Fin 6, (voice.operators op).envelopeState = EnvelopeState.OFF

instance (voice : Voice) : Decidable (allReleased voice) :=
  Fintype.decidableForallFintype

/-- One iteration of the per-voice body of the per-sample loop
(fm.cpp lines 436-501): skip inactive voices, advance all six envelopes,
deactivate the voice (and produce nothing) if all six operators are OFF,
otherwise route through the channel algorithm, apply the effects and
advance all six phases.  Returns the new voice and its mono
contribution. -/
def voiceStep (s : Synth) (v : Voice) : Voice × ℝ :=
  if v.active = false then (v, 0)
  else
    let v1 : Voice := { v with operators := fun op => updateEnvelope s.timeStep (v.operators op) }
    if allReleased v1 then ({ v1 with active := false }, 0)
    else
      let ch := s.channels v1.channel
      let voiceOutput := processAlgorithmSwitch ch.algorithm v1
      let voiceOutput := applyEffects s voiceOutput
      let v2 : Voice := { v1 with operators := fun op => updateOperatorPhase22Bit s.sampleRate (v1.operators op) }
      (v2, voiceOutput)

/-- std::clamp on doubles. -/
def clampR (x lo hi : ℝ) : ℝ := min (max x lo) hi

/-- static_cast<int16_t>(double) on an in-range value: truncation toward
zero. -/
def truncInt (x : ℝ) : ℤ := if 0 ≤ x then ⌊x⌋ else ⌈x⌉

/-- FMSynthesizer::generateSample (fm.cpp lines 433-508): one sample
tick.  Voices do not interact within a tick (each loop iteration reads
and writes only voices_[voice] plus read-only shared state), so the
sequential C++ loop is modelled voice-by-voice; the pan constant of a
voice depends on the parity of its index and the voice contributions
are summed into the left/right samples, scaled and clamped to the
14-bit output range. -/
def generateSample (s : Synth) : Synth × ℤ × ℤ :=
  let step := fun i : Fin 16 => voiceStep s (s.voices i)
  let pan := fun i : Fin 16 => if (i : ℕ) % 2 = 0 then PAN_LEFT else PAN_RIGHT
  let leftSample := ∑ i : Fin 16, (step i).2 * (PAN_SCALE - pan i)
  let rightSample := ∑ i : Fin 16, (step i).2 * (PAN_SCALE + pan i)
  ({ s with voices := fun i => (step i).1 },
   truncInt (clampR (leftSample * AUDIO_SCALE) (AUDIO_MIN_VALUE : ℝ) (AUDIO_MAX_VALUE : ℝ)),
   truncInt (clampR (rightSample * AUDIO_SCALE) (AUDIO_MIN_VALUE : ℝ) (AUDIO_MAX_VALUE : ℝ)))

/-- FMSynthesizer::findFreeVoice (fm.cpp lines 773-780): linear scan
for the first voice with active == false.  The C++ function returns the
index as an int and -1 when every voice is active; the -1 sentinel is
modelled by none. -/
def findFreeVoice (s : Synth) : Option (Fin 16) :=
  (List.finRange 16).find? (fun i => !(s.voices i).active)

/-- FMSynthesizer::releaseVoice (fm.cpp lines 789-794). -/
def releaseVoice (s : Synth) (voice : ℤ) : Synth :=
  if h : 0 ≤ voice ∧ voice < 16 then
    let i : Fin 16 := ⟨voice.toNat, by omega⟩
    let v := { s.voices i with active := false, note := -1 }
    { s with voices := Function.update s.voices i v }
  else s

/-- The voice-initialization part of FMSynthesizer::noteOn (fm.cpp
lines 147-167), for a voice index already known to be valid: mark the
voice active on channel 0 with the new note and velocity, and rebuild
the six operators from the current preset.  Fields the source does not
assign (phaseAccumulator, pitchBend, modulationWheel, the per-operator
velocity) keep their previous values. -/
def noteOnAt (s : Synth) (i : Fin 16) (note : ℤ) (velocity : ℝ) : Synth :=
  let baseFreq := noteToFrequency22Bit note
  let old := s.voices i
  let v : Voice :=
    { old with
      active := true
      note := note
      velocity := velocity
      channel := 0
      operators := fun op =>
        let freq := baseFreq * s.currentPreset.frequencies op
        { old.operators op with
          frequency := freq
          amplitude := s.currentPreset.amplitudes op
          modulationIndex := s.currentPreset.modulationIndices op
          waveform := s.currentPreset.waveforms op
          attack := s.currentPreset.attacks op
          decay := s.currentPreset.decays op
          sustain := s.currentPreset.sustains op
          release := s.currentPreset.releases op
          phaseIncrement := calculatePhaseIncrement22Bit s.sampleRate freq
          envelopeState := EnvelopeState.ATTACK
          envelopeTime := 0
          envelopeLevel := 0 } }
  { s with voices := Function.update s.voices i v }

/-- FMSynthesizer::noteOn (fm.cpp lines 140-168): use the first free
voice; when none is free (findFreeVoice returned -1), release voice 0
and reuse it. -/
def noteOn (s : Synth) (note : ℤ) (velocity : ℝ) : Synth :=
  match findFreeVoice s with
  | none => noteOnAt (releaseVoice s 0) 0 note velocity
  | some i => noteOnAt s i note velocity

/-- FMSynthesizer::noteOff (fm.cpp lines 178-187): every active voice
holding the note has all six operators forced into RELEASE with
envelopeTime reset to 0. -/
def noteOff (s : Synth) (note : ℤ) : Synth :=
  { s with voices := fun i =>
      let v := s.voices i
      if v.active = true ∧ v.note = note then
        { v with operators := fun op =>
            { v.operators op with
              envelopeState := EnvelopeState.RELEASE
              envelopeTime := 0 } }
      else v }

/-- FMSynthesizer::setChannelActive (fm.cpp lines 205-209). -/
def setChannelActive (s : Synth) (channel : ℤ) (active : Bool) : Synth :=
  if h : 0 ≤ channel ∧ channel < 8 then
    let i : Fin 8 := ⟨channel.toNat, by omega⟩
    let c := { s.channels i with active := active }
    { s with channels := Function.update s.channels i c }
  else s

/-- FMSynthesizer::setOperatorFrequency (fm.cpp lines 218-224). -/
def setOperatorFrequency (s : Synth) (voice opIndex : ℤ) (frequency : ℝ) : Synth :=
  if h : 0 ≤ voice ∧ voice < 16 ∧ 0 ≤ opIndex ∧ opIndex < 6 then
    let i : Fin 16 := ⟨voice.toNat, by omega⟩
    let op : Fin 6 := ⟨opIndex.toNat, by omega⟩
    let o := { (s.voices i).operators op with
               frequency := frequency
               phaseIncrement := calculatePhaseIncrement22Bit s.sampleRate frequency }
    let v := { s.voices i with operators := Function.update (s.voices i).operators op o }
    { s with voices := Function.update s.voices i v }
  else s

/-- FMSynthesizer::setOperatorAmplitude (fm.cpp lines 226-231). -/
def setOperatorAmplitude (s : Synth) (voice opIndex : ℤ) (amplitude : ℝ) : Synth :=
  if h : 0 ≤ voice ∧ voice < 16 ∧ 0 ≤ opIndex ∧ opIndex < 6 then
    let i : Fin 16 := ⟨voice.toNat, by omega⟩
    let op : Fin 6 := ⟨opIndex.toNat, by omega⟩
    let o := { (s.voices i).operators op with
               amplitude := clampR amplitude MIN_AMPLITUDE MAX_AMPLITUDE }
    let v := { s.voices i with operators := Function.update (s.voices i).operators op o }
    { s with voices := Function.update s.voices i v }
  else s

/-- FMSynthesizer::setOperatorModulationIndex (fm.cpp lines 233-237). -/
def setOperatorModulationIndex (s : Synth) (voice opIndex : ℤ) (index : ℝ) : Synth :=
  if h : 0 ≤ voice ∧ voice < 16 ∧ 0 ≤ opIndex ∧ opIndex < 6 then
    let i : Fin 16 := ⟨voice.toNat, by omega⟩
    let op : Fin 6 := ⟨opIndex.toNat, by omega⟩
    let o := { (s.voices i).operators op with modulationIndex := index }
    let v := { s.voices i with operators := Function.update (s.voices i).operators op o }
    { s with voices := Function.update s.voices i v }
  else s

/-- FMSynthesizer::setOperatorWaveform (fm.cpp lines 239-243). -/
def setOperatorWaveform (s : Synth) (voice opIndex : ℤ) (waveform : WaveformType) : Synth :=
  if h : 0 ≤ voice ∧ voice < 16 ∧ 0 ≤ opIndex ∧ opIndex < 6 then
    let i : Fin 16 := ⟨voice.toNat, by omega⟩
    let op : Fin 6 := ⟨opIndex.toNat, by omega⟩
    let o := { (s.voices i).operators op with waveform := waveform }
    let v := { s.voices i with operators := Function.update (s.voices i).operators op o }
    { s with voices := Function.update s.voices i v }
  else s

/-- FMSynthesizer::setAlgorithm (fm.cpp lines 245-249). -/
def setAlgorithm (s : Synth) (channel algorithm : ℤ) : Synth :=
  if h : 0 ≤ channel ∧ channel < 8 ∧ 0 ≤ algorithm ∧ algorithm < 32 then
    let i : Fin 8 := ⟨channel.toNat, by omega⟩
    let c := { s.channels i with algorithm := algorithm }
    { s with channels := Function.update s.channels i c }
  else s

/-- FMSynthesizer::setEnvelope (fm.cpp lines 251-260). -/
def setEnvelope (s : Synth) (voice opIndex : ℤ) (attack decay sustain release : ℝ) : Synth :=
  if h : 0 ≤ voice ∧ voice < 16 ∧ 0 ≤ opIndex ∧ opIndex < 6 then
    let i : Fin 16 := ⟨voice.toNat, by omega⟩
    let op : Fin 6 := ⟨opIndex.toNat, by omega⟩
    let o := { (s.voices i).operators op with
               attack := max MIN_ENVELOPE_TIME attack
               decay := max MIN_ENVELOPE_TIME decay
               sustain := clampR sustain MIN_VOLUME MAX_VOLUME
               release := max MIN_ENVELOPE_TIME release }
    let v := { s.voices i with operators := Function.update (s.voices i).operators op o }
    { s with voices := Function.update s.voices i v }
  else s

/-- FMSynthesizer::setPitchBend (fm.cpp lines 554-565): record the bend
on the channel and broadcast it to every operator of every voice whose
channel field equals the given channel index. -/
def setPitchBend (s : Synth) (channel : ℤ) (bend : ℝ) : Synth :=
  if h : 0 ≤ channel ∧ channel < 8 then
    let i : Fin 8 := ⟨channel.toNat, by omega⟩
    let c := { s.channels i with pitchBend := bend }
    { s with
      channels := Function.update s.channels i c
      voices := fun v =>
        if ((s.voices v).channel : ℤ) = channel then
          { s.voices v with operators := fun op =>
              { (s.voices v).operators op with pitchBend := bend } }
        else s.voices v }
  else s

/-- FMSynthesizer::setModulationWheel (fm.cpp lines 567-578). -/
def setModulationWheel (s : Synth) (channel : ℤ) (mod : ℝ) : Synth :=
  if h : 0 ≤ channel ∧ channel < 8 then
    let i : Fin 8 := ⟨channel.toNat, by omega⟩
    let c := { s.channels i with modulationWheel := mod }
    { s with
      channels := Function.update s.channels i c
      voices := fun v =>
        if ((s.voices v).channel : ℤ) = channel then
          { s.voices v with operators := fun op =>
              { (s.voices v).operators op with modulationWheel := mod } }
        else s.voices v }
  else s

/-- FMSynthesizer::allNotesOff (fm.cpp lines 194-203). -/
def allNotesOff (s : Synth) : Synth :=
  { s with voices := fun i =>
      let v := s.voices i
      if v.active = true then
        { v with operators := fun op =>
            { v.operators op with
              envelopeState := EnvelopeState.RELEASE
              envelopeTime := 0 } }
      else v }

/-- One externally visible engine step: a control-plane call (noteOn or
noteOff, invoked by the event-source layer) or one sample tick of the
audio thread. -/
inductive Cmd where
  | cmdNoteOn (note : ℤ) (velocity : ℝ)
  | cmdNoteOff (note : ℤ)
  | cmdTick

/-- Two commands that are identical except possibly for the velocity
argument passed to noteOn. -/
def Cmd.Similar : Cmd → Cmd → Prop
  | Cmd.cmdNoteOn n1 _, Cmd.cmdNoteOn n2 _ => n1 = n2
  | Cmd.cmdNoteOff n1, Cmd.cmdNoteOff n2 => n1 = n2
  | Cmd.cmdTick, Cmd.cmdTick => True
  | _, _ => False

/-- Execute one command: the new engine state plus the stereo sample
pair a tick delivers to the output sink. -/
def execCmd (s : Synth) : Cmd → Synth × List (ℤ × ℤ)
  | Cmd.cmdNoteOn n v => (noteOn s n v, [])
  | Cmd.cmdNoteOff n => (noteOff s n, [])
  | Cmd.cmdTick => ((generateSample s).1, [(generateSample s).2])

/-- The stream of stereo sample pairs produced by a command sequence. -/
def runOutputs (s : Synth) : List Cmd → List (ℤ × ℤ)
  | [] => []
  | c :: cs => (execCmd s c).2 ++ runOutputs (execCmd s c).1 cs

/-- A voice with its velocity field replaced by the default 1.0.  Two
voices with the same erasure agree on every field except velocity. -/
def eraseVoice (v : Voice) : Voice := { v with velocity := 1 }

/-- A synthesizer state with every voice velocity field erased. -/
def eraseSynth (s : Synth) : Synth :=
  { s with voices := fun i => eraseVoice (s.voices i) }

/-- Quantization to the 2^-22 grid exactly as the specification
describes it: multiply by the precision scale constant 2^22, round to
the nearest integer, multiply by the reciprocal.  Spec-side definition,
to be compared with the inlined arithmetic of noteToFrequency22Bit,
calculatePhaseIncrement22Bit and generateOperatorOutput. -/
def quantize22 (x : ℝ) : ℝ := (round (x * FREQ_PRECISION_SCALE) : ℝ) * FREQ_PRECISION_INV

/-- An operator configured, through the public setter surface, with
frequency 88200 Hz (setOperatorFrequency applies no clamping): at a
44100 Hz sample rate its per-sample phase increment is 4 times pi. -/
def highFreqOp : Operator := { defaultOperator with frequency := 88200 }

/-- A voice whose six operators are in RELEASE and will cross to OFF on
the next envelope update (sustain 1, release 1, envelopeTime already at
the release length), holding note 60. -/
def releasingVoice : Voice :=
  { defaultVoice with
    active := true
    note := 60
    operators := fun _ =>
      { defaultOperator with
        envelopeState := EnvelopeState.RELEASE
        envelopeTime := 1
        sustain := 1
        release := 1 } }

/-- An engine at sample rate 1 whose voice 0 is the releasing voice. -/
def releasingSynth : Synth :=
  { mkSynth 1 with voices := fun i => if i = 0 then releasingVoice else defaultVoice }

/-- An engine on which every one of the 16 voices is active. -/
def allActiveSynth : Synth :=
  { mkSynth 44100 with voices := fun _ => { defaultVoice with active := true, note := 70 } }

/-- An engine whose voice 0 is active holding note 60 and whose other
voices are inactive. -/
def oneNoteSynth : Synth :=
  { mkSynth 44100 with
    voices := fun i => if i = 0 then { defaultVoice with active := true, note := 60 } else defaultVoice }

/-- An operator two envelope steps of length 1/2 away from completing
a 2-second attack: used to exercise the ATTACK branch of the envelope
monotonicity statement. -/
def attackOp : Operator :=
  { defaultOperator with
    envelopeState := EnvelopeState.ATTACK
    attack := 2
    decay := 1
    release := 1
    sustain := 1/2
    envelopeTime := 0
    envelopeLevel := 0 }

/-- C3: for every voice state, the mono sample returned by the
algorithm-31 router (all six parallel carriers) equals the exact sum of
the six operators' independent generateOperatorOutput values at zero
modulation input, with no operator output fed into any other operator's
modulation input. -/
theorem algorithm31_is_carrier_sum (v : Voice) :
    processAlgorithm31 v = ∑ i : Fin 6, generateOperatorOutput (v.operators i) 0 := by
  simp only [processAlgorithm31, Fin.sum_univ_six]

/-- C4: the algorithm routers at indices 22, 23, 29 and 30, the
documented duplicates of the all-parallel-into-one-carrier pattern,
produce identical output for identical operator state. -/
theorem algorithm_duplicates_equivalent (v : Voice) :
    processAlgorithm22 v = processAlgorithm23 v ∧
    processAlgorithm23 v = processAlgorithm29 v ∧
    processAlgorithm29 v = processAlgorithm30 v :=
  ⟨rfl, rfl, rfl⟩

/-- C8: all frequency-to-phase-increment and modulation-scaling math
goes through quantization to the 2^-22 grid (multiply by 2^22, round to
nearest, multiply by the reciprocal): the note-to-frequency result is
the quantization of the raw frequency and lands on the grid, the phase
increment is TWO_PI times the quantized frequency divided by the sample
rate, and the raw modulation input is quantized to the grid before
being scaled by the operator modulation index and added to the phase
accumulator. -/
theorem quantization_22bit_pipeline :
    (∀ note : ℤ,
        noteToFrequency22Bit note = quantize22 (noteToFrequency note) ∧
        ∃ k : ℤ, noteToFrequency22Bit note = (k : ℝ) * FREQ_PRECISION_INV) ∧
    (∀ (sr : ℤ) (f : ℝ),
        calculatePhaseIncrement22Bit sr f = TWO_PI * quantize22 f / (sr : ℝ) ∧
        ∃ k : ℤ, quantize22 f = (k : ℝ) * FREQ_PRECISION_INV) ∧
    (∀ (op : Operator) (m : ℝ),
        generateOperatorOutput op m =
          waveformValue op.waveform (op.phaseAccumulator + quantize22 m * op.modulationIndex) *
            op.amplitude * op.envelopeLevel * op.velocity) := by
  refine ⟨fun note => ⟨rfl, ⟨round (noteToFrequency note * FREQ_PRECISION_SCALE), rfl⟩⟩,
    fun sr f => ⟨rfl, ⟨round (f * FREQ_PRECISION_SCALE), rfl⟩⟩,
    fun op m => rfl⟩

/-- C9: every control-plane setter taking a voice, operator, channel or
algorithm index leaves the synthesizer state unchanged when called with
an out-of-range index (voice outside [0,16), operator outside [0,6),
channel outside [0,8), algorithm outside [0,32)).  All setters are
total functions, so no exception is raised. -/
theorem out_of_range_setters_noop (s : Synth) (voice opIndex channel algorithm : ℤ)
    (frequency amplitude index attack decay sustain rel bend modw : ℝ)
    (waveform : WaveformType) (active : Bool) :
    (¬ (0 ≤ voice ∧ voice < 16) ∨ ¬ (0 ≤ opIndex ∧ opIndex < 6) →
       setOperatorFrequency s voice opIndex frequency = s ∧
       setOperatorAmplitude s voice opIndex amplitude = s ∧
       setOperatorModulationIndex s voice opIndex index = s ∧
       setOperatorWaveform s voice opIndex waveform = s ∧
       setEnvelope s voice opIndex attack decay sustain rel = s) ∧
    (¬ (0 ≤ channel ∧ channel < 8) →
       setChannelActive s channel active = s ∧
       setPitchBend s channel bend = s ∧
       setModulationWheel s channel modw = s) ∧
    (¬ (0 ≤ channel ∧ channel < 8) ∨ ¬ (0 ≤ algorithm ∧ algorithm < 32) →
       setAlgorithm s channel algorithm = s) := by
  refine ⟨fun h => ?_, fun h => ?_, fun h => ?_⟩
  · have hg : ¬ (0 ≤ voice ∧ voice < 16 ∧ 0 ≤ opIndex ∧ opIndex < 6) := by tauto
    exact ⟨by rw [setOperatorFrequency, dif_neg hg],
           by rw [setOperatorAmplitude, dif_neg hg],
           by rw [setOperatorModulationIndex, dif_neg hg],
           by rw [setOperatorWaveform, dif_neg hg],
           by rw [setEnvelope, dif_neg hg]⟩
  · exact ⟨by rw [setChannelActive, dif_neg h],
           by rw [setPitchBend, dif_neg h],
           by rw [setModulationWheel, dif_neg h]⟩
  · have hg : ¬ (0 ≤ channel ∧ channel < 8 ∧ 0 ≤ algorithm ∧ algorithm < 32) := by tauto
    rw [setAlgorithm, dif_neg hg]

/-- Witness for C9: voice index 16, channel index -1 and algorithm
index 32 are all rejected on a freshly constructed engine. -/
theorem out_of_range_setters_noop_witness :
    setOperatorFrequency (mkSynth 44100) 16 0 123 = mkSynth 44100 ∧
    setEnvelope (mkSynth 44100) 16 0 1 1 1 1 = mkSynth 44100 ∧
    setPitchBend (mkSynth 44100) (-1) 2 = mkSynth 44100 ∧
    setAlgorithm (mkSynth 44100) (-1) 32 = mkSynth 44100 := by
  have h := out_of_range_setters_noop (mkSynth 44100) 16 0 (-1) 32 123 0 0 1 1 1 1 2 0
    WaveformType.SINE true
  exact ⟨(h.1 (by decide)).1, (h.1 (by decide)).2.2.2.2,
         (h.2.1 (by decide)).2.1, h.2.2 (by decide)⟩

theorem updateOperatorPhase22Bit_frequency (sr : ℤ) (op : Operator) :
    (updateOperatorPhase22Bit sr op).frequency = op.frequency := rfl

theorem updateOperatorPhase22Bit_pitchBend (sr : ℤ) (op : Operator) :
    (updateOperatorPhase22Bit sr op).pitchBend = op.pitchBend := rfl

theorem phase_wrap_step (sr : ℤ) (op : Operator)
    (h0 : 0 ≤ op.phaseAccumulator) (h1 : op.phaseAccumulator < TWO_PI)
    (hi0 : 0 ≤ calculatePhaseIncrement22Bit sr op.frequency * op.pitchBend)
    (hi1 : calculatePhaseIncrement22Bit sr op.frequency * op.pitchBend < TWO_PI) :
    0 ≤ (updateOperatorPhase22Bit sr op).phaseAccumulator ∧
    (updateOperatorPhase22Bit sr op).phaseAccumulator < TWO_PI := by
  unfold updateOperatorPhase22Bit
  dsimp only
  split_ifs with h
  · constructor <;> linarith
  · push_neg at h
    constructor <;> linarith

theorem iterate_phase_fields (sr : ℤ) (op : Operator) (n : ℕ) :
    ((updateOperatorPhase22Bit sr)^[n] op).frequency = op.frequency ∧
    ((updateOperatorPhase22Bit sr)^[n] op).pitchBend = op.pitchBend := by
  induction n with
  | zero => exact ⟨rfl, rfl⟩
  | succ k ih =>
      rw [Function.iterate_succ_apply']
      exact ⟨by rw [updateOperatorPhase22Bit_frequency, ih.1],
             by rw [updateOperatorPhase22Bit_pitchBend, ih.2]⟩

/-- C2 (amended): provided the effective per-sample increment, the
quantized phase increment times the operator pitch bend, lies in
[0, TWO_PI) - which holds at supported sample-rate/frequency ranges
with the default pitch bend, but is not enforced by the setters - an
accumulator starting in [0, TWO_PI) stays in [0, TWO_PI) after every
phase-advance call. -/
theorem phase_accumulator_wrap_invariant (sr : ℤ) (op : Operator)
    (h0 : 0 ≤ op.phaseAccumulator) (h1 : op.phaseAccumulator < TWO_PI)
    (hi0 : 0 ≤ calculatePhaseIncrement22Bit sr op.frequency * op.pitchBend)
    (hi1 : calculatePhaseIncrement22Bit sr op.frequency * op.pitchBend < TWO_PI) :
    ∀ n : ℕ, 0 ≤ ((updateOperatorPhase22Bit sr)^[n] op).phaseAccumulator ∧
      ((updateOperatorPhase22Bit sr)^[n] op).phaseAccumulator < TWO_PI := by
  intro n
  induction n with
  | zero => exact ⟨h0, h1⟩
  | succ k ih =>
      rw [Function.iterate_succ_apply']
      refine phase_wrap_step sr _ ih.1 ih.2 ?_ ?_
      · rw [(iterate_phase_fields sr op k).1, (iterate_phase_fields sr op k).2]
        exact hi0
      · rw [(iterate_phase_fields sr op k).1, (iterate_phase_fields sr op k).2]
        exact hi1

theorem default_increment_in_range :
    0 ≤ calculatePhaseIncrement22Bit 44100 defaultOperator.frequency * defaultOperator.pitchBend ∧
    calculatePhaseIncrement22Bit 44100 defaultOperator.frequency * defaultOperator.pitchBend < TWO_PI := by
  have hpi := Real.pi_pos
  have hb : defaultOperator.pitchBend = (1:ℝ) := rfl
  have hf : defaultOperator.frequency = (440:ℝ) := rfl
  have hinc : calculatePhaseIncrement22Bit 44100 (440:ℝ) = 2 * Real.pi * 440 / 44100 := by
    unfold calculatePhaseIncrement22Bit TWO_PI FREQ_PRECISION_INV
    norm_num [round_eq, FREQ_PRECISION_SCALE]
  rw [hb, hf, hinc]
  constructor
  · positivity
  · unfold TWO_PI
    nlinarith

/-- Witness for C2: the default operator (440 Hz, pitch bend 1) at
sample rate 44100 satisfies the increment-range hypothesis, and its
accumulator is inside [0, TWO_PI) after three phase advances. -/
theorem phase_accumulator_wrap_invariant_witness :
    (0 ≤ calculatePhaseIncrement22Bit 44100 defaultOperator.frequency * defaultOperator.pitchBend ∧
     calculatePhaseIncrement22Bit 44100 defaultOperator.frequency * defaultOperator.pitchBend < TWO_PI) ∧
    (0 ≤ ((updateOperatorPhase22Bit 44100)^[3] defaultOperator).phaseAccumulator ∧
     ((updateOperatorPhase22Bit 44100)^[3] defaultOperator).phaseAccumulator < TWO_PI) := by
  have hi := default_increment_in_range
  have hacc0 : (0:ℝ) ≤ defaultOperator.phaseAccumulator := le_of_eq rfl
  have hacc1 : defaultOperator.phaseAccumulator < TWO_PI := by
    have hpi := Real.pi_pos
    have : defaultOperator.phaseAccumulator = (0:ℝ) := rfl
    rw [this]
    unfold TWO_PI
    linarith
  exact ⟨hi, phase_accumulator_wrap_invariant 44100 defaultOperator hacc0 hacc1 hi.1 hi.2 3⟩

/-- Counterexample for C2 as frozen: an operator at 88200 Hz with pitch
bend 1 (neither forbidden by any setter) at sample rate 44100 gets a
phase increment of exactly 4 pi; after one phase-advance call the
single conditional subtraction leaves the accumulator at exactly
TWO_PI, outside [0, TWO_PI). -/
theorem phase_wrap_counterexample :
    ¬ ((updateOperatorPhase22Bit 44100 highFreqOp).phaseAccumulator < TWO_PI) := by
  have hpi := Real.pi_pos
  have hinc : calculatePhaseIncrement22Bit 44100 (88200:ℝ) = 2 * (2 * Real.pi) := by
    unfold calculatePhaseIncrement22Bit TWO_PI FREQ_PRECISION_INV
    norm_num [round_eq, FREQ_PRECISION_SCALE]
    ring
  have hf : highFreqOp.frequency = (88200:ℝ) := rfl
  have hb : highFreqOp.pitchBend = (1:ℝ) := rfl
  have ha : highFreqOp.phaseAccumulator = (0:ℝ) := rfl
  unfold updateOperatorPhase22Bit
  dsimp only
  rw [hf, hb, ha, hinc]
  rw [if_pos (by unfold TWO_PI; nlinarith)]
  unfold TWO_PI
  intro hlt
  nlinarith

/-- C5: when every one of the 16 voices is active, noteOn steals voice
index 0: afterwards voice 0 is active, holds the new note number and
the new velocity, and each of its six operators has its frequency
derived from the new note (the quantized note frequency times the
preset frequency ratio), its phase increment recomputed from that
frequency, and its envelope restarted in ATTACK. -/
theorem noteOn_steals_voice0 (s : Synth) (note : ℤ) (vel : ℝ)
    (h : ∀ i : Fin 16, (s.voices i).active = true) :
    ((noteOn s note vel).voices 0).active = true ∧
    ((noteOn s note vel).voices 0).note = note ∧
    ((noteOn s note vel).voices 0).velocity = vel ∧
    (∀ op : Fin 6,
       (((noteOn s note vel).voices 0).operators op).frequency =
         noteToFrequency22Bit note * s.currentPreset.frequencies op ∧
       (((noteOn s note vel).voices 0).operators op).phaseIncrement =
         calculatePhaseIncrement22Bit s.sampleRate
           (noteToFrequency22Bit note * s.currentPreset.frequencies op) ∧
       (((noteOn s note vel).voices 0).operators op).envelopeState = EnvelopeState.ATTACK) := by
  have hfind : findFreeVoice s = none := by
    rw [findFreeVoice, List.find?_eq_none]
    intro i _
    simp [h i]
  have hno : noteOn s note vel = noteOnAt (releaseVoice s 0) 0 note vel := by
    rw [noteOn, hfind]
  rw [hno]
  exact ⟨rfl, rfl, rfl, fun op => ⟨rfl, rfl, rfl⟩⟩

/-- Witness for C5: on an engine with all 16 voices active, a further
noteOn lands on voice 0 with the requested note and velocity. -/
theorem noteOn_steals_voice0_witness :
    (∀ i : Fin 16, (allActiveSynth.voices i).active = true) ∧
    ((noteOn allActiveSynth 60 0.9).voices 0).active = true ∧
    ((noteOn allActiveSynth 60 0.9).voices 0).note = 60 ∧
    (((noteOn allActiveSynth 60 0.9).voices 0).operators 0).envelopeState = EnvelopeState.ATTACK := by
  have hall : ∀ i : Fin 16, (allActiveSynth.voices i).active = true := fun i => rfl
  have h := noteOn_steals_voice0 allActiveSynth 60 0.9 hall
  exact ⟨hall, h.1, h.2.1, (h.2.2.2 0).2.2⟩

/-- C6: noteOff(N) puts all six operators of every active voice whose
note equals N into RELEASE with envelopeTime reset to 0, regardless of
their current envelope state; and when no active voice holds note N it
leaves the entire synthesizer state unchanged. -/
theorem noteOff_semantics (s : Synth) (note : ℤ) :
    (∀ i : Fin 16, (s.voices i).active = true → (s.voices i).note = note →
       ∀ op : Fin 6,
         (((noteOff s note).voices i).operators op).envelopeState = EnvelopeState.RELEASE ∧
         (((noteOff s note).voices i).operators op).envelopeTime = 0) ∧
    ((∀ i : Fin 16, ¬ ((s.voices i).active = true ∧ (s.voices i).note = note)) →
       noteOff s note = s) := by
  constructor
  · intro i hact hnote op
    simp only [noteOff]
    rw [if_pos ⟨hact, hnote⟩]
    exact ⟨rfl, rfl⟩
  · intro h
    show { s with voices := _ } = s
    have hv : (fun i =>
        let v := s.voices i
        if v.active = true ∧ v.note = note then
          { v with operators := fun op =>
              { v.operators op with
                envelopeState := EnvelopeState.RELEASE
                envelopeTime := 0 } }
        else v) = s.voices := by
      funext i
      exact if_neg (h i)
    rw [hv]

/-- Witness for C6: on an engine whose voice 0 actively holds note 60,
noteOff 60 releases its operators, while noteOff 61 is a no-op on the
whole state. -/
theorem noteOff_semantics_witness :
    (((noteOff oneNoteSynth 60).voices 0).operators 0).envelopeState = EnvelopeState.RELEASE ∧
    (((noteOff oneNoteSynth 60).voices 0).operators 0).envelopeTime = 0 ∧
    noteOff oneNoteSynth 61 = oneNoteSynth := by
  have h60 := (noteOff_semantics oneNoteSynth 60).1 0 rfl rfl 0
  have h61 := (noteOff_semantics oneNoteSynth 61).2 (by decide)
  exact ⟨h60.1, h60.2, h61⟩

/-- Characterization of one envelope update from the OFF state
(fm.cpp lines 651-653). -/
theorem ue_off (dt : ℝ) (op : Operator) (h : op.envelopeState = EnvelopeState.OFF) :
    updateEnvelope dt op =
      { op with envelopeTime := op.envelopeTime + dt, envelopeLevel := MIN_VOLUME } := by
  obtain ⟨fq, am, mi, wf, att, dec, sus, rel, st, lvl, tm, pa, pinc, pb, mw, velo⟩ := op
  simp only at h
  subst h
  rfl

/-- Characterization of one envelope update from the SUSTAIN state
(fm.cpp lines 638-640). -/
theorem ue_sustain (dt : ℝ) (op : Operator) (h : op.envelopeState = EnvelopeState.SUSTAIN) :
    updateEnvelope dt op =
      { op with envelopeTime := op.envelopeTime + dt, envelopeLevel := op.sustain } := by
  obtain ⟨fq, am, mi, wf, att, dec, sus, rel, st, lvl, tm, pa, pinc, pb, mw, velo⟩ := op
  simp only at h
  subst h
  rfl

/-- Characterization of one envelope update from the ATTACK state
(fm.cpp lines 621-628). -/
theorem ue_attack (dt : ℝ) (op : Operator) (h : op.envelopeState = EnvelopeState.ATTACK) :
    updateEnvelope dt op =
      if (op.envelopeTime + dt) / op.attack ≥ MAX_VOLUME then
        { op with envelopeTime := 0, envelopeLevel := MAX_VOLUME,
                  envelopeState := EnvelopeState.DECAY }
      else
        { op with envelopeTime := op.envelopeTime + dt,
                  envelopeLevel := (op.envelopeTime + dt) / op.attack } := by
  obtain ⟨fq, am, mi, wf, att, dec, sus, rel, st, lvl, tm, pa, pinc, pb, mw, velo⟩ := op
  simp only at h
  subst h
  rfl

/-- Characterization of one envelope update from the DECAY state
(fm.cpp lines 630-636). -/
theorem ue_decay (dt : ℝ) (op : Operator) (h : op.envelopeState = EnvelopeState.DECAY) :
    updateEnvelope dt op =
      if MAX_VOLUME - ((op.envelopeTime + dt) / op.decay) * (MAX_VOLUME - op.sustain) ≤ op.sustain then
        { op with envelopeTime := op.envelopeTime + dt, envelopeLevel := op.sustain,
                  envelopeState := EnvelopeState.SUSTAIN }
      else
        { op with envelopeTime := op.envelopeTime + dt,
                  envelopeLevel := MAX_VOLUME - ((op.envelopeTime + dt) / op.decay) * (MAX_VOLUME - op.sustain) } := by
  obtain ⟨fq, am, mi, wf, att, dec, sus, rel, st, lvl, tm, pa, pinc, pb, mw, velo⟩ := op
  simp only at h
  subst h
  rfl

/-- Characterization of one envelope update from the RELEASE state
(fm.cpp lines 642-649). -/
theorem ue_release (dt : ℝ) (op : Operator) (h : op.envelopeState = EnvelopeState.RELEASE) :
    updateEnvelope dt op =
      if op.sustain * (MAX_VOLUME - (op.envelopeTime + dt) / op.release) ≤ MIN_VOLUME ∨
         op.envelopeTime + dt ≥ op.release then
        { op with envelopeTime := op.envelopeTime + dt, envelopeLevel := MIN_VOLUME,
                  envelopeState := EnvelopeState.OFF }
      else
        { op with envelopeTime := op.envelopeTime + dt,
                  envelopeLevel := op.sustain * (MAX_VOLUME - (op.envelopeTime + dt) / op.release) } := by
  obtain ⟨fq, am, mi, wf, att, dec, sus, rel, st, lvl, tm, pa, pinc, pb, mw, velo⟩ := op
  simp only at h
  subst h
  rfl

/-- C1 (amended): the per-sample loop reclaims an active voice in the
same sample tick whose envelope updates bring all six operators to OFF,
and not before: after the tick the voice has active = false while its
note field is left unchanged (the loop does not call releaseVoice and
never writes note = -1); when some operator is still not OFF after the
envelope updates, the voice stays active. -/
theorem voice_reclamation (s : Synth) (i : Fin 16)
    (hact : (s.voices i).active = true) :
    ((∀ op : Fin 6,
        (updateEnvelope s.timeStep ((s.voices i).operators op)).envelopeState = EnvelopeState.OFF) →
       ((generateSample s).1.voices i).active = false ∧
       ((generateSample s).1.voices i).note = (s.voices i).note) ∧
    ((¬ ∀ op : Fin 6,
        (updateEnvelope s.timeStep ((s.voices i).operators op)).envelopeState = EnvelopeState.OFF) →
       ((generateSample s).1.voices i).active = true ∧
       ((generateSample s).1.voices i).note = (s.voices i).note) := by
  have hv : (generateSample s).1.voices i = (voiceStep s (s.voices i)).1 := rfl
  have hne : ¬ ((s.voices i).active = false) := by simp [hact]
  constructor
  · intro hoff
    rw [hv]
    simp only [voiceStep, allReleased, if_neg hne]
    rw [if_pos hoff]
    exact ⟨rfl, rfl⟩
  · intro hnotoff
    rw [hv]
    simp only [voiceStep, allReleased, if_neg hne]
    rw [if_neg hnotoff]
    exact ⟨hact, rfl⟩

/-- On the releasing engine, every operator of voice 0 crosses from
RELEASE to OFF during one envelope update. -/
theorem releasingSynth_ops_off : ∀ op : Fin 6,
    (updateEnvelope releasingSynth.timeStep
      ((releasingSynth.voices 0).operators op)).envelopeState = EnvelopeState.OFF := by
  intro op
  have hts : releasingSynth.timeStep = (1:ℝ) := by
    show (1:ℝ) / ((1:ℤ):ℝ) = 1
    norm_num
  rw [ue_release releasingSynth.timeStep ((releasingSynth.voices 0).operators op) rfl]
  have hcond : ((releasingSynth.voices 0).operators op).sustain *
        (MAX_VOLUME -
          (((releasingSynth.voices 0).operators op).envelopeTime + releasingSynth.timeStep) /
            ((releasingSynth.voices 0).operators op).release) ≤ MIN_VOLUME ∨
      ((releasingSynth.voices 0).operators op).envelopeTime + releasingSynth.timeStep ≥
        ((releasingSynth.voices 0).operators op).release :=
    Or.inr (by
      rw [show ((releasingSynth.voices 0).operators op).envelopeTime = (1:ℝ) from rfl,
          show ((releasingSynth.voices 0).operators op).release = (1:ℝ) from rfl, hts]
      norm_num)
  rw [if_pos hcond]

/-- Witness for C1: voice 0 of the releasing engine is active, its six
operators all cross to OFF on this tick's envelope update, and after
that very tick the voice has been deactivated with its note field still
60. -/
theorem voice_reclamation_witness :
    (releasingSynth.voices 0).active = true ∧
    (∀ op : Fin 6,
      (updateEnvelope releasingSynth.timeStep
        ((releasingSynth.voices 0).operators op)).envelopeState = EnvelopeState.OFF) ∧
    ((generateSample releasingSynth).1.voices 0).active = false ∧
    ((generateSample releasingSynth).1.voices 0).note = 60 := by
  have hact : (releasingSynth.voices 0).active = true := rfl
  have h := (voice_reclamation releasingSynth 0 hact).1 releasingSynth_ops_off
  exact ⟨hact, releasingSynth_ops_off, h.1, h.2.trans rfl⟩

/-- Counterexample for C1 as frozen: on the releasing engine the six
operators of voice 0 reach OFF during this tick's envelope update, and
in that same tick (not one tick later) the loop already clears active,
while the note field stays 60 instead of being set to -1. -/
theorem voice_reclamation_counterexample :
    (∀ op : Fin 6,
       (((generateSample releasingSynth).1.voices 0).operators op).envelopeState = EnvelopeState.OFF) ∧
    ((generateSample releasingSynth).1.voices 0).active = false ∧
    ((generateSample releasingSynth).1.voices 0).note = 60 ∧
    ¬ ((generateSample releasingSynth).1.voices 0).note = -1 := by
  have hstep : (generateSample releasingSynth).1.voices 0 =
      (voiceStep releasingSynth (releasingSynth.voices 0)).1 := rfl
  have hne : ¬ ((releasingSynth.voices 0).active = false) := by decide
  rw [hstep]
  simp only [voiceStep, allReleased, if_neg hne]
  rw [if_pos releasingSynth_ops_off]
  refine ⟨fun op => releasingSynth_ops_off op, rfl, rfl, by decide⟩

/-- The envelope update never changes the attack parameter
(fm.cpp lines 617-655 write only envelopeTime, envelopeLevel and
envelopeState). -/
theorem ue_attack_const (dt : ℝ) (op : Operator) :
    (updateEnvelope dt op).attack = op.attack := by
  cases hst : op.envelopeState
  case OFF => rw [ue_off dt op hst]
  case SUSTAIN => rw [ue_sustain dt op hst]
  case ATTACK =>
    rw [ue_attack dt op hst]
    by_cases hc : (op.envelopeTime + dt) / op.attack ≥ MAX_VOLUME
    · rw [if_pos hc]
    · rw [if_neg hc]
  case DECAY =>
    rw [ue_decay dt op hst]
    by_cases hc : MAX_VOLUME - ((op.envelopeTime + dt) / op.decay) * (MAX_VOLUME - op.sustain) ≤ op.sustain
    · rw [if_pos hc]
    · rw [if_neg hc]
  case RELEASE =>
    rw [ue_release dt op hst]
    by_cases hc : op.sustain * (MAX_VOLUME - (op.envelopeTime + dt) / op.release) ≤ MIN_VOLUME ∨ op.envelopeTime + dt ≥ op.release
    · rw [if_pos hc]
    · rw [if_neg hc]

/-- The envelope update never changes the decay parameter. -/
theorem ue_decay_const (dt : ℝ) (op : Operator) :
    (updateEnvelope dt op).decay = op.decay := by
  cases hst : op.envelopeState
  case OFF => rw [ue_off dt op hst]
  case SUSTAIN => rw [ue_sustain dt op hst]
  case ATTACK =>
    rw [ue_attack dt op hst]
    by_cases hc : (op.envelopeTime + dt) / op.attack ≥ MAX_VOLUME
    · rw [if_pos hc]
    · rw [if_neg hc]
  case DECAY =>
    rw [ue_decay dt op hst]
    by_cases hc : MAX_VOLUME - ((op.envelopeTime + dt) / op.decay) * (MAX_VOLUME - op.sustain) ≤ op.sustain
    · rw [if_pos hc]
    · rw [if_neg hc]
  case RELEASE =>
    rw [ue_release dt op hst]
    by_cases hc : op.sustain * (MAX_VOLUME - (op.envelopeTime + dt) / op.release) ≤ MIN_VOLUME ∨ op.envelopeTime + dt ≥ op.release
    · rw [if_pos hc]
    · rw [if_neg hc]

/-- The envelope update never changes the sustain parameter. -/
theorem ue_sustain_const (dt : ℝ) (op : Operator) :
    (updateEnvelope dt op).sustain = op.sustain := by
  cases hst : op.envelopeState
  case OFF => rw [ue_off dt op hst]
  case SUSTAIN => rw [ue_sustain dt op hst]
  case ATTACK =>
    rw [ue_attack dt op hst]
    by_cases hc : (op.envelopeTime + dt) / op.attack ≥ MAX_VOLUME
    · rw [if_pos hc]
    · rw [if_neg hc]
  case DECAY =>
    rw [ue_decay dt op hst]
    by_cases hc : MAX_VOLUME - ((op.envelopeTime + dt) / op.decay) * (MAX_VOLUME - op.sustain) ≤ op.sustain
    · rw [if_pos hc]
    · rw [if_neg hc]
  case RELEASE =>
    rw [ue_release dt op hst]
    by_cases hc : op.sustain * (MAX_VOLUME - (op.envelopeTime + dt) / op.release) ≤ MIN_VOLUME ∨ op.envelopeTime + dt ≥ op.release
    · rw [if_pos hc]
    · rw [if_neg hc]

/-- The envelope update never changes the release parameter. -/
theorem ue_release_const (dt : ℝ) (op : Operator) :
    (updateEnvelope dt op).release = op.release := by
  cases hst : op.envelopeState
  case OFF => rw [ue_off dt op hst]
  case SUSTAIN => rw [ue_sustain dt op hst]
  case ATTACK =>
    rw [ue_attack dt op hst]
    by_cases hc : (op.envelopeTime + dt) / op.attack ≥ MAX_VOLUME
    · rw [if_pos hc]
    · rw [if_neg hc]
  case DECAY =>
    rw [ue_decay dt op hst]
    by_cases hc : MAX_VOLUME - ((op.envelopeTime + dt) / op.decay) * (MAX_VOLUME - op.sustain) ≤ op.sustain
    · rw [if_pos hc]
    · rw [if_neg hc]
  case RELEASE =>
    rw [ue_release dt op hst]
    by_cases hc : op.sustain * (MAX_VOLUME - (op.envelopeTime + dt) / op.release) ≤ MIN_VOLUME ∨ op.envelopeTime + dt ≥ op.release
    · rw [if_pos hc]
    · rw [if_neg hc]

/-- Envelope state after one update from the OFF state. -/
theorem ue_state_off (dt : ℝ) (op : Operator)
    (h : op.envelopeState = EnvelopeState.OFF) :
    (updateEnvelope dt op).envelopeState = EnvelopeState.OFF := by
  rw [ue_off dt op h]
  exact h

/-- Envelope state after one update from the SUSTAIN state. -/
theorem ue_state_sustain (dt : ℝ) (op : Operator)
    (h : op.envelopeState = EnvelopeState.SUSTAIN) :
    (updateEnvelope dt op).envelopeState = EnvelopeState.SUSTAIN := by
  rw [ue_sustain dt op h]
  exact h

/-- Envelope state after one update from the ATTACK state. -/
theorem ue_state_attack (dt : ℝ) (op : Operator)
    (h : op.envelopeState = EnvelopeState.ATTACK) :
    (updateEnvelope dt op).envelopeState =
      if (op.envelopeTime + dt) / op.attack ≥ MAX_VOLUME then EnvelopeState.DECAY
      else EnvelopeState.ATTACK := by
  rw [ue_attack dt op h]
  by_cases hc : (op.envelopeTime + dt) / op.attack ≥ MAX_VOLUME
  · rw [if_pos hc, if_pos hc]
  · rw [if_neg hc, if_neg hc]
    exact h

/-- Envelope level after one update from the ATTACK state. -/
theorem ue_level_attack (dt : ℝ) (op : Operator)
    (h : op.envelopeState = EnvelopeState.ATTACK) :
    (updateEnvelope dt op).envelopeLevel =
      if (op.envelopeTime + dt) / op.attack ≥ MAX_VOLUME then MAX_VOLUME
      else (op.envelopeTime + dt) / op.attack := by
  rw [ue_attack dt op h]
  by_cases hc : (op.envelopeTime + dt) / op.attack ≥ MAX_VOLUME
  · rw [if_pos hc, if_pos hc]
  · rw [if_neg hc, if_neg hc]

/-- Envelope time after one update from the ATTACK state. -/
theorem ue_time_attack (dt : ℝ) (op : Operator)
    (h : op.envelopeState = EnvelopeState.ATTACK) :
    (updateEnvelope dt op).envelopeTime =
      if (op.envelopeTime + dt) / op.attack ≥ MAX_VOLUME then 0
      else op.envelopeTime + dt := by
  rw [ue_attack dt op h]
  by_cases hc : (op.envelopeTime + dt) / op.attack ≥ MAX_VOLUME
  · rw [if_pos hc, if_pos hc]
  · rw [if_neg hc, if_neg hc]

/-- Envelope state after one update from the DECAY state. -/
theorem ue_state_decay (dt : ℝ) (op : Operator)
    (h : op.envelopeState = EnvelopeState.DECAY) :
    (updateEnvelope dt op).envelopeState =
      if MAX_VOLUME - ((op.envelopeTime + dt) / op.decay) * (MAX_VOLUME - op.sustain) ≤ op.sustain
      then EnvelopeState.SUSTAIN else EnvelopeState.DECAY := by
  rw [ue_decay dt op h]
  by_cases hc : MAX_VOLUME - ((op.envelopeTime + dt) / op.decay) * (MAX_VOLUME - op.sustain) ≤ op.sustain
  · rw [if_pos hc, if_pos hc]
  · rw [if_neg hc, if_neg hc]
    exact h

/-- Envelope level after one update from the DECAY state. -/
theorem ue_level_decay (dt : ℝ) (op : Operator)
    (h : op.envelopeState = EnvelopeState.DECAY) :
    (updateEnvelope dt op).envelopeLevel =
      if MAX_VOLUME - ((op.envelopeTime + dt) / op.decay) * (MAX_VOLUME - op.sustain) ≤ op.sustain
      then op.sustain
      else MAX_VOLUME - ((op.envelopeTime + dt) / op.decay) * (MAX_VOLUME - op.sustain) := by
  rw [ue_decay dt op h]
  by_cases hc : MAX_VOLUME - ((op.envelopeTime + dt) / op.decay) * (MAX_VOLUME - op.sustain) ≤ op.sustain
  · rw [if_pos hc, if_pos hc]
  · rw [if_neg hc, if_neg hc]

/-- Envelope time after one update from the DECAY state. -/
theorem ue_time_decay (dt : ℝ) (op : Operator)
    (h : op.envelopeState = EnvelopeState.DECAY) :
    (updateEnvelope dt op).envelopeTime = op.envelopeTime + dt := by
  rw [ue_decay dt op h]
  by_cases hc : MAX_VOLUME - ((op.envelopeTime + dt) / op.decay) * (MAX_VOLUME - op.sustain) ≤ op.sustain
  · rw [if_pos hc]
  · rw [if_neg hc]

/-- Envelope state after one update from the RELEASE state. -/
theorem ue_state_release (dt : ℝ) (op : Operator)
    (h : op.envelopeState = EnvelopeState.RELEASE) :
    (updateEnvelope dt op).envelopeState =
      if op.sustain * (MAX_VOLUME - (op.envelopeTime + dt) / op.release) ≤ MIN_VOLUME ∨
         op.envelopeTime + dt ≥ op.release
      then EnvelopeState.OFF else EnvelopeState.RELEASE := by
  rw [ue_release dt op h]
  by_cases hc : op.sustain * (MAX_VOLUME - (op.envelopeTime + dt) / op.release) ≤ MIN_VOLUME ∨ op.envelopeTime + dt ≥ op.release
  · rw [if_pos hc, if_pos hc]
  · rw [if_neg hc, if_neg hc]
    exact h

/-- Envelope level after one update from the RELEASE state. -/
theorem ue_level_release (dt : ℝ) (op : Operator)
    (h : op.envelopeState = EnvelopeState.RELEASE) :
    (updateEnvelope dt op).envelopeLevel =
      if op.sustain * (MAX_VOLUME - (op.envelopeTime + dt) / op.release) ≤ MIN_VOLUME ∨
         op.envelopeTime + dt ≥ op.release
      then MIN_VOLUME
      else op.sustain * (MAX_VOLUME - (op.envelopeTime + dt) / op.release) := by
  rw [ue_release dt op h]
  by_cases hc : op.sustain * (MAX_VOLUME - (op.envelopeTime + dt) / op.release) ≤ MIN_VOLUME ∨ op.envelopeTime + dt ≥ op.release
  · rw [if_pos hc, if_pos hc]
  · rw [if_neg hc, if_neg hc]

/-- Envelope time after one update from the RELEASE state. -/
theorem ue_time_release (dt : ℝ) (op : Operator)
    (h : op.envelopeState = EnvelopeState.RELEASE) :
    (updateEnvelope dt op).envelopeTime = op.envelopeTime + dt := by
  rw [ue_release dt op h]
  by_cases hc : op.sustain * (MAX_VOLUME - (op.envelopeTime + dt) / op.release) ≤ MIN_VOLUME ∨ op.envelopeTime + dt ≥ op.release
  · rw [if_pos hc]
  · rw [if_neg hc]

/-- C7: across consecutive envelope-update steps of one operator with
positive attack/decay/release times, sustain in [0,1] and a nonnegative
time step: while the operator remains in ATTACK the level is
non-decreasing and stays at most 1.0; while in DECAY the level is
non-increasing and stays at least sustain; while in RELEASE the level
is non-increasing and stays at least 0. -/
theorem envelope_monotonicity (dt : ℝ) (op : Operator)
    (hdt : 0 ≤ dt) (ha : 0 < op.attack) (hd : 0 < op.decay) (hr : 0 < op.release)
    (hs0 : 0 ≤ op.sustain) (hs1 : op.sustain ≤ 1) :
    ((updateEnvelope dt op).envelopeState = EnvelopeState.ATTACK →
       (updateEnvelope dt op).envelopeLevel ≤
         (updateEnvelope dt (updateEnvelope dt op)).envelopeLevel ∧
       (updateEnvelope dt (updateEnvelope dt op)).envelopeLevel ≤ 1) ∧
    ((updateEnvelope dt op).envelopeState = EnvelopeState.DECAY →
       (updateEnvelope dt (updateEnvelope dt op)).envelopeLevel ≤
         (updateEnvelope dt op).envelopeLevel ∧
       op.sustain ≤ (updateEnvelope dt (updateEnvelope dt op)).envelopeLevel) ∧
    ((updateEnvelope dt op).envelopeState = EnvelopeState.RELEASE →
       (updateEnvelope dt (updateEnvelope dt op)).envelopeLevel ≤
         (updateEnvelope dt op).envelopeLevel ∧
       0 ≤ (updateEnvelope dt (updateEnvelope dt op)).envelopeLevel) := by
  have hMV : MAX_VOLUME = (1:ℝ) := rfl
  have hmv : MIN_VOLUME = (0:ℝ) := rfl
  cases hst : op.envelopeState
  case OFF =>
    have hS1 := ue_state_off dt op hst
    exact ⟨fun hw => EnvelopeState.noConfusion (hS1.symm.trans hw),
      fun hw => EnvelopeState.noConfusion (hS1.symm.trans hw),
      fun hw => EnvelopeState.noConfusion (hS1.symm.trans hw)⟩
  case SUSTAIN =>
    have hS1 := ue_state_sustain dt op hst
    exact ⟨fun hw => EnvelopeState.noConfusion (hS1.symm.trans hw),
      fun hw => EnvelopeState.noConfusion (hS1.symm.trans hw),
      fun hw => EnvelopeState.noConfusion (hS1.symm.trans hw)⟩
  case ATTACK =>
    have hS1 := ue_state_attack dt op hst
    have hL1 := ue_level_attack dt op hst
    have hT1 := ue_time_attack dt op hst
    by_cases hc1 : (op.envelopeTime + dt) / op.attack ≥ MAX_VOLUME
    · rw [if_pos hc1] at hS1 hL1 hT1
      have hL2 := ue_level_decay dt (updateEnvelope dt op) hS1
      rw [hT1, ue_decay_const dt op, ue_sustain_const dt op] at hL2
      by_cases hc2 : MAX_VOLUME - ((0 + dt) / op.decay) * (MAX_VOLUME - op.sustain) ≤ op.sustain
      · rw [if_pos hc2] at hL2
        refine ⟨fun hw => EnvelopeState.noConfusion (hS1.symm.trans hw),
          fun _ => ⟨?_, ?_⟩,
          fun hw => EnvelopeState.noConfusion (hS1.symm.trans hw)⟩
        · rw [hL2, hL1]
          linarith
        · rw [hL2]
      · rw [if_neg hc2] at hL2
        push_neg at hc2
        have hq : 0 ≤ ((0 + dt) / op.decay) * (MAX_VOLUME - op.sustain) :=
          mul_nonneg (div_nonneg (by linarith) hd.le) (by linarith)
        refine ⟨fun hw => EnvelopeState.noConfusion (hS1.symm.trans hw),
          fun _ => ⟨?_, ?_⟩,
          fun hw => EnvelopeState.noConfusion (hS1.symm.trans hw)⟩
        · rw [hL2, hL1]
          linarith
        · rw [hL2]
          linarith
    · rw [if_neg hc1] at hS1 hL1 hT1
      push_neg at hc1
      have hL2 := ue_level_attack dt (updateEnvelope dt op) hS1
      rw [hT1, ue_attack_const dt op] at hL2
      by_cases hc2 : (op.envelopeTime + dt + dt) / op.attack ≥ MAX_VOLUME
      · rw [if_pos hc2] at hL2
        refine ⟨fun _ => ⟨?_, ?_⟩,
          fun hw => EnvelopeState.noConfusion (hS1.symm.trans hw),
          fun hw => EnvelopeState.noConfusion (hS1.symm.trans hw)⟩
        · rw [hL2, hL1]
          linarith
        · rw [hL2]
          linarith
      · rw [if_neg hc2] at hL2
        push_neg at hc2
        have hmono : (op.envelopeTime + dt) / op.attack ≤ (op.envelopeTime + dt + dt) / op.attack :=
          (div_le_div_iff_of_pos_right ha).mpr (by linarith)
        refine ⟨fun _ => ⟨?_, ?_⟩,
          fun hw => EnvelopeState.noConfusion (hS1.symm.trans hw),
          fun hw => EnvelopeState.noConfusion (hS1.symm.trans hw)⟩
        · rw [hL2, hL1]
          linarith
        · rw [hL2]
          linarith
  case DECAY =>
    have hS1 := ue_state_decay dt op hst
    have hL1 := ue_level_decay dt op hst
    have hT1 := ue_time_decay dt op hst
    by_cases hc1 : MAX_VOLUME - ((op.envelopeTime + dt) / op.decay) * (MAX_VOLUME - op.sustain) ≤ op.sustain
    · rw [if_pos hc1] at hS1
      exact ⟨fun hw => EnvelopeState.noConfusion (hS1.symm.trans hw),
        fun hw => EnvelopeState.noConfusion (hS1.symm.trans hw),
        fun hw => EnvelopeState.noConfusion (hS1.symm.trans hw)⟩
    · rw [if_neg hc1] at hS1 hL1
      push_neg at hc1
      have hL2 := ue_level_decay dt (updateEnvelope dt op) hS1
      rw [hT1, ue_decay_const dt op, ue_sustain_const dt op] at hL2
      by_cases hc2 : MAX_VOLUME - ((op.envelopeTime + dt + dt) / op.decay) * (MAX_VOLUME - op.sustain) ≤ op.sustain
      · rw [if_pos hc2] at hL2
        refine ⟨fun hw => EnvelopeState.noConfusion (hS1.symm.trans hw),
          fun _ => ⟨?_, ?_⟩,
          fun hw => EnvelopeState.noConfusion (hS1.symm.trans hw)⟩
        · rw [hL2, hL1]
          linarith
        · rw [hL2]
      · rw [if_neg hc2] at hL2
        push_neg at hc2
        have hmono : (op.envelopeTime + dt) / op.decay ≤ (op.envelopeTime + dt + dt) / op.decay :=
          (div_le_div_iff_of_pos_right hd).mpr (by linarith)
        have hfac : 0 ≤ MAX_VOLUME - op.sustain := by linarith
        have hprod : ((op.envelopeTime + dt) / op.decay) * (MAX_VOLUME - op.sustain) ≤
            ((op.envelopeTime + dt + dt) / op.decay) * (MAX_VOLUME - op.sustain) :=
          mul_le_mul_of_nonneg_right hmono hfac
        refine ⟨fun hw => EnvelopeState.noConfusion (hS1.symm.trans hw),
          fun _ => ⟨?_, ?_⟩,
          fun hw => EnvelopeState.noConfusion (hS1.symm.trans hw)⟩
        · rw [hL2, hL1]
          linarith
        · rw [hL2]
          linarith
  case RELEASE =>
    have hS1 := ue_state_release dt op hst
    have hL1 := ue_level_release dt op hst
    have hT1 := ue_time_release dt op hst
    by_cases hc1 : op.sustain * (MAX_VOLUME - (op.envelopeTime + dt) / op.release) ≤ MIN_VOLUME ∨ op.envelopeTime + dt ≥ op.release
    · rw [if_pos hc1] at hS1
      exact ⟨fun hw => EnvelopeState.noConfusion (hS1.symm.trans hw),
        fun hw => EnvelopeState.noConfusion (hS1.symm.trans hw),
        fun hw => EnvelopeState.noConfusion (hS1.symm.trans hw)⟩
    · rw [if_neg hc1] at hS1 hL1
      push_neg at hc1
      obtain ⟨hc1a, hc1b⟩ := hc1
      have hL2 := ue_level_release dt (updateEnvelope dt op) hS1
      rw [hT1, ue_release_const dt op, ue_sustain_const dt op] at hL2
      by_cases hc2 : op.sustain * (MAX_VOLUME - (op.envelopeTime + dt + dt) / op.release) ≤ MIN_VOLUME ∨ op.envelopeTime + dt + dt ≥ op.release
      · rw [if_pos hc2] at hL2
        refine ⟨fun hw => EnvelopeState.noConfusion (hS1.symm.trans hw),
          fun hw => EnvelopeState.noConfusion (hS1.symm.trans hw),
          fun _ => ⟨?_, ?_⟩⟩
        · rw [hL2, hL1]
          linarith
        · rw [hL2]
          linarith
      · rw [if_neg hc2] at hL2
        push_neg at hc2
        obtain ⟨hc2a, hc2b⟩ := hc2
        have hmono : (op.envelopeTime + dt) / op.release ≤ (op.envelopeTime + dt + dt) / op.release :=
          (div_le_div_iff_of_pos_right hr).mpr (by linarith)
        have hprod : op.sustain * (MAX_VOLUME - (op.envelopeTime + dt + dt) / op.release) ≤
            op.sustain * (MAX_VOLUME - (op.envelopeTime + dt) / op.release) :=
          mul_le_mul_of_nonneg_left (by linarith) hs0
        refine ⟨fun hw => EnvelopeState.noConfusion (hS1.symm.trans hw),
          fun hw => EnvelopeState.noConfusion (hS1.symm.trans hw),
          fun _ => ⟨?_, ?_⟩⟩
        · rw [hL2, hL1]
          linarith
        · rw [hL2]
          linarith

/-- Witness for C7: an operator half-way through a 2-second attack with
time step 1/2 stays in ATTACK after one update, and the next update
does not decrease its level nor push it above 1. -/
theorem envelope_monotonicity_witness :
    ((updateEnvelope (1/2) attackOp).envelopeState = EnvelopeState.ATTACK) ∧
    ((updateEnvelope (1/2) attackOp).envelopeLevel ≤
       (updateEnvelope (1/2) (updateEnvelope (1/2) attackOp)).envelopeLevel ∧
     (updateEnvelope (1/2) (updateEnvelope (1/2) attackOp)).envelopeLevel ≤ 1) := by
  have hst : attackOp.envelopeState = EnvelopeState.ATTACK := rfl
  have h1 : (updateEnvelope (1/2) attackOp).envelopeState = EnvelopeState.ATTACK := by
    rw [ue_attack (1/2) attackOp hst, if_neg]
    · rfl
    · norm_num [attackOp, MAX_VOLUME]
  have h := envelope_monotonicity (1/2) attackOp (by norm_num) (by norm_num [attackOp])
    (by norm_num [attackOp]) (by norm_num [attackOp]) (by norm_num [attackOp])
    (by norm_num [attackOp])
  exact ⟨h1, h.1 h1⟩

theorem processAlgorithm0_congr {v1 v2 : Voice} (h : v1.operators = v2.operators) :
    processAlgorithm0 v1 = processAlgorithm0 v2 := by
  simp only [processAlgorithm0, h]

theorem processAlgorithm1_congr {v1 v2 : Voice} (h : v1.operators = v2.operators) :
    processAlgorithm1 v1 = processAlgorithm1 v2 := by
  simp only [processAlgorithm1, h]

theorem processAlgorithm2_congr {v1 v2 : Voice} (h : v1.operators = v2.operators) :
    processAlgorithm2 v1 = processAlgorithm2 v2 := by
  simp only [processAlgorithm2, h]

theorem processAlgorithm3_congr {v1 v2 : Voice} (h : v1.operators = v2.operators) :
    processAlgorithm3 v1 = processAlgorithm3 v2 := by
  simp only [processAlgorithm3, h]

theorem processAlgorithm4_congr {v1 v2 : Voice} (h : v1.operators = v2.operators) :
    processAlgorithm4 v1 = processAlgorithm4 v2 := by
  simp only [processAlgorithm4, h]

theorem processAlgorithm5_congr {v1 v2 : Voice} (h : v1.operators = v2.operators) :
    processAlgorithm5 v1 = processAlgorithm5 v2 := by
  simp only [processAlgorithm5, h]

theorem processAlgorithm6_congr {v1 v2 : Voice} (h : v1.operators = v2.operators) :
    processAlgorithm6 v1 = processAlgorithm6 v2 := by
  simp only [processAlgorithm6, h]

theorem processAlgorithm7_congr {v1 v2 : Voice} (h : v1.operators = v2.operators) :
    processAlgorithm7 v1 = processAlgorithm7 v2 := by
  simp only [processAlgorithm7, h]

theorem processAlgorithm8_congr {v1 v2 : Voice} (h : v1.operators = v2.operators) :
    processAlgorithm8 v1 = processAlgorithm8 v2 := by
  simp only [processAlgorithm8, h]

theorem processAlgorithm9_congr {v1 v2 : Voice} (h : v1.operators = v2.operators) :
    processAlgorithm9 v1 = processAlgorithm9 v2 := by
  simp only [processAlgorithm9, h]

theorem processAlgorithm10_congr {v1 v2 : Voice} (h : v1.operators = v2.operators) :
    processAlgorithm10 v1 = processAlgorithm10 v2 := by
  simp only [processAlgorithm10, h]

theorem processAlgorithm11_congr {v1 v2 : Voice} (h : v1.operators = v2.operators) :
    processAlgorithm11 v1 = processAlgorithm11 v2 := by
  simp only [processAlgorithm11, h]

theorem processAlgorithm12_congr {v1 v2 : Voice} (h : v1.operators = v2.operators) :
    processAlgorithm12 v1 = processAlgorithm12 v2 := by
  simp only [processAlgorithm12, h]

theorem processAlgorithm13_congr {v1 v2 : Voice} (h : v1.operators = v2.operators) :
    processAlgorithm13 v1 = processAlgorithm13 v2 := by
  simp only [processAlgorithm13, h]

theorem processAlgorithm14_congr {v1 v2 : Voice} (h : v1.operators = v2.operators) :
    processAlgorithm14 v1 = processAlgorithm14 v2 := by
  simp only [processAlgorithm14, h]

theorem processAlgorithm15_congr {v1 v2 : Voice} (h : v1.operators = v2.operators) :
    processAlgorithm15 v1 = processAlgorithm15 v2 := by
  simp only [processAlgorithm15, h]

theorem processAlgorithm16_congr {v1 v2 : Voice} (h : v1.operators = v2.operators) :
    processAlgorithm16 v1 = processAlgorithm16 v2 := by
  simp only [processAlgorithm16, h]

theorem processAlgorithm17_congr {v1 v2 : Voice} (h : v1.operators = v2.operators) :
    processAlgorithm17 v1 = processAlgorithm17 v2 := by
  simp only [processAlgorithm17, h]

theorem processAlgorithm18_congr {v1 v2 : Voice} (h : v1.operators = v2.operators) :
    processAlgorithm18 v1 = processAlgorithm18 v2 := by
  simp only [processAlgorithm18, h]

theorem processAlgorithm19_congr {v1 v2 : Voice} (h : v1.operators = v2.operators) :
    processAlgorithm19 v1 = processAlgorithm19 v2 := by
  simp only [processAlgorithm19, h]

theorem processAlgorithm20_congr {v1 v2 : Voice} (h : v1.operators = v2.operators) :
    processAlgorithm20 v1 = processAlgorithm20 v2 := by
  simp only [processAlgorithm20, h]

theorem processAlgorithm21_congr {v1 v2 : Voice} (h : v1.operators = v2.operators) :
    processAlgorithm21 v1 = processAlgorithm21 v2 := by
  simp only [processAlgorithm21, h]

theorem processAlgorithm22_congr {v1 v2 : Voice} (h : v1.operators = v2.operators) :
    processAlgorithm22 v1 = processAlgorithm22 v2 := by
  simp only [processAlgorithm22, h]

theorem processAlgorithm23_congr {v1 v2 : Voice} (h : v1.operators = v2.operators) :
    processAlgorithm23 v1 = processAlgorithm23 v2 := by
  simp only [processAlgorithm23, h]

theorem processAlgorithm24_congr {v1 v2 : Voice} (h : v1.operators = v2.operators) :
    processAlgorithm24 v1 = processAlgorithm24 v2 := by
  simp only [processAlgorithm24, h]

theorem processAlgorithm25_congr {v1 v2 : Voice} (h : v1.operators = v2.operators) :
    processAlgorithm25 v1 = processAlgorithm25 v2 := by
  simp only [processAlgorithm25, h]

theorem processAlgorithm26_congr {v1 v2 : Voice} (h : v1.operators = v2.operators) :
    processAlgorithm26 v1 = processAlgorithm26 v2 := by
  simp only [processAlgorithm26, h]

theorem processAlgorithm27_congr {v1 v2 : Voice} (h : v1.operators = v2.operators) :
    processAlgorithm27 v1 = processAlgorithm27 v2 := by
  simp only [processAlgorithm27, h]

theorem processAlgorithm28_congr {v1 v2 : Voice} (h : v1.operators = v2.operators) :
    processAlgorithm28 v1 = processAlgorithm28 v2 := by
  simp only [processAlgorithm28, h]

theorem processAlgorithm29_congr {v1 v2 : Voice} (h : v1.operators = v2.operators) :
    processAlgorithm29 v1 = processAlgorithm29 v2 := by
  simp only [processAlgorithm29, h]

theorem processAlgorithm30_congr {v1 v2 : Voice} (h : v1.operators = v2.operators) :
    processAlgorithm30 v1 = processAlgorithm30 v2 := by
  simp only [processAlgorithm30, h]

theorem processAlgorithm31_congr {v1 v2 : Voice} (h : v1.operators = v2.operators) :
    processAlgorithm31 v1 = processAlgorithm31 v2 := by
  simp only [processAlgorithm31, h]

/-- The 32-way algorithm dispatch reads only the operators of the
voice it is handed. -/
theorem processAlgorithmSwitch_congr (algorithm : ℤ) {v1 v2 : Voice}
    (h : v1.operators = v2.operators) :
    processAlgorithmSwitch algorithm v1 = processAlgorithmSwitch algorithm v2 := by
  unfold processAlgorithmSwitch
  by_cases h0 : algorithm = 0
  · rw [if_pos h0, if_pos h0]
    exact processAlgorithm0_congr h
  rw [if_neg h0, if_neg h0]
  by_cases h1 : algorithm = 1
  · rw [if_pos h1, if_pos h1]
    exact processAlgorithm1_congr h
  rw [if_neg h1, if_neg h1]
  by_cases h2 : algorithm = 2
  · rw [if_pos h2, if_pos h2]
    exact processAlgorithm2_congr h
  rw [if_neg h2, if_neg h2]
  by_cases h3 : algorithm = 3
  · rw [if_pos h3, if_pos h3]
    exact processAlgorithm3_congr h
  rw [if_neg h3, if_neg h3]
  by_cases h4 : algorithm = 4
  · rw [if_pos h4, if_pos h4]
    exact processAlgorithm4_congr h
  rw [if_neg h4, if_neg h4]
  by_cases h5 : algorithm = 5
  · rw [if_pos h5, if_pos h5]
    exact processAlgorithm5_congr h
  rw [if_neg h5, if_neg h5]
  by_cases h6 : algorithm = 6
  · rw [if_pos h6, if_pos h6]
    exact processAlgorithm6_congr h
  rw [if_neg h6, if_neg h6]
  by_cases h7 : algorithm = 7
  · rw [if_pos h7, if_pos h7]
    exact processAlgorithm7_congr h
  rw [if_neg h7, if_neg h7]
  by_cases h8 : algorithm = 8
  · rw [if_pos h8, if_pos h8]
    exact processAlgorithm8_congr h
  rw [if_neg h8, if_neg h8]
  by_cases h9 : algorithm = 9
  · rw [if_pos h9, if_pos h9]
    exact processAlgorithm9_congr h
  rw [if_neg h9, if_neg h9]
  by_cases h10 : algorithm = 10
  · rw [if_pos h10, if_pos h10]
    exact processAlgorithm10_congr h
  rw [if_neg h10, if_neg h10]
  by_cases h11 : algorithm = 11
  · rw [if_pos h11, if_pos h11]
    exact processAlgorithm11_congr h
  rw [if_neg h11, if_neg h11]
  by_cases h12 : algorithm = 12
  · rw [if_pos h12, if_pos h12]
    exact processAlgorithm12_congr h
  rw [if_neg h12, if_neg h12]
  by_cases h13 : algorithm = 13
  · rw [if_pos h13, if_pos h13]
    exact processAlgorithm13_congr h
  rw [if_neg h13, if_neg h13]
  by_cases h14 : algorithm = 14
  · rw [if_pos h14, if_pos h14]
    exact processAlgorithm14_congr h
  rw [if_neg h14, if_neg h14]
  by_cases h15 : algorithm = 15
  · rw [if_pos h15, if_pos h15]
    exact processAlgorithm15_congr h
  rw [if_neg h15, if_neg h15]
  by_cases h16 : algorithm = 16
  · rw [if_pos h16, if_pos h16]
    exact processAlgorithm16_congr h
  rw [if_neg h16, if_neg h16]
  by_cases h17 : algorithm = 17
  · rw [if_pos h17, if_pos h17]
    exact processAlgorithm17_congr h
  rw [if_neg h17, if_neg h17]
  by_cases h18 : algorithm = 18
  · rw [if_pos h18, if_pos h18]
    exact processAlgorithm18_congr h
  rw [if_neg h18, if_neg h18]
  by_cases h19 : algorithm = 19
  · rw [if_pos h19, if_pos h19]
    exact processAlgorithm19_congr h
  rw [if_neg h19, if_neg h19]
  by_cases h20 : algorithm = 20
  · rw [if_pos h20, if_pos h20]
    exact processAlgorithm20_congr h
  rw [if_neg h20, if_neg h20]
  by_cases h21 : algorithm = 21
  · rw [if_pos h21, if_pos h21]
    exact processAlgorithm21_congr h
  rw [if_neg h21, if_neg h21]
  by_cases h22 : algorithm = 22
  · rw [if_pos h22, if_pos h22]
    exact processAlgorithm22_congr h
  rw [if_neg h22, if_neg h22]
  by_cases h23 : algorithm = 23
  · rw [if_pos h23, if_pos h23]
    exact processAlgorithm23_congr h
  rw [if_neg h23, if_neg h23]
  by_cases h24 : algorithm = 24
  · rw [if_pos h24, if_pos h24]
    exact processAlgorithm24_congr h
  rw [if_neg h24, if_neg h24]
  by_cases h25 : algorithm = 25
  · rw [if_pos h25, if_pos h25]
    exact processAlgorithm25_congr h
  rw [if_neg h25, if_neg h25]
  by_cases h26 : algorithm = 26
  · rw [if_pos h26, if_pos h26]
    exact processAlgorithm26_congr h
  rw [if_neg h26, if_neg h26]
  by_cases h27 : algorithm = 27
  · rw [if_pos h27, if_pos h27]
    exact processAlgorithm27_congr h
  rw [if_neg h27, if_neg h27]
  by_cases h28 : algorithm = 28
  · rw [if_pos h28, if_pos h28]
    exact processAlgorithm28_congr h
  rw [if_neg h28, if_neg h28]
  by_cases h29 : algorithm = 29
  · rw [if_pos h29, if_pos h29]
    exact processAlgorithm29_congr h
  rw [if_neg h29, if_neg h29]
  by_cases h30 : algorithm = 30
  · rw [if_pos h30, if_pos h30]
    exact processAlgorithm30_congr h
  rw [if_neg h30, if_neg h30]
  by_cases h31 : algorithm = 31
  · rw [if_pos h31, if_pos h31]
    exact processAlgorithm31_congr h
  rw [if_neg h31, if_neg h31]

/-- Erasing the voice velocity leaves the operators untouched. -/
theorem eraseVoice_operators (v : Voice) : (eraseVoice v).operators = v.operators := rfl

/-- Erasing voice velocities leaves every other engine field alone. -/
theorem eraseSynth_projections (s : Synth) :
    (eraseSynth s).channels = s.channels ∧ (eraseSynth s).timeStep = s.timeStep := ⟨rfl, rfl⟩

/-- The per-voice tick body reads no voice velocity from the engine
context. -/
theorem voiceStep_eraseSynth (s : Synth) (v : Voice) :
    voiceStep (eraseSynth s) v = voiceStep s v := rfl

/-- The per-voice tick body commutes with erasing the voice velocity:
the output is unchanged and the new voice differs only in velocity. -/
theorem voiceStep_erase (s : Synth) (v : Voice) :
    voiceStep s (eraseVoice v) =
      (eraseVoice (voiceStep s v).1, (voiceStep s v).2) := by
  obtain ⟨ops, act, note, vel, ch⟩ := v
  cases act
  case false => rfl
  case true =>
    simp only [voiceStep, eraseVoice]
    rw [if_neg (by simp : ¬(true = false)), if_neg (by simp : ¬(true = false))]
    by_cases h : allReleased
        { operators := fun op => updateEnvelope s.timeStep (ops op), active := true,
          note := note, velocity := vel, channel := ch }
    · have hA : allReleased
          { operators := fun op => updateEnvelope s.timeStep (ops op), active := true,
            note := note, velocity := 1, channel := ch } := h
      rw [if_pos hA, if_pos h]
    · have hA : ¬ allReleased
          { operators := fun op => updateEnvelope s.timeStep (ops op), active := true,
            note := note, velocity := 1, channel := ch } := h
      rw [if_neg hA, if_neg h]
      refine Prod.ext ?_ ?_
      · rfl
      · exact congrArg (applyEffects s) (processAlgorithmSwitch_congr _ rfl)

/-- One sample tick commutes with erasing all voice velocities: same
stereo output, and the successor states agree after erasure. -/
theorem generateSample_erase (s : Synth) :
    (generateSample (eraseSynth s)).1 = eraseSynth (generateSample s).1 ∧
    (generateSample (eraseSynth s)).2 = (generateSample s).2 := by
  have hstep : ∀ i : Fin 16, voiceStep (eraseSynth s) (eraseVoice (s.voices i)) =
      (eraseVoice (voiceStep s (s.voices i)).1, (voiceStep s (s.voices i)).2) :=
    fun i => (voiceStep_eraseSynth s (eraseVoice (s.voices i))).trans (voiceStep_erase s (s.voices i))
  have hl : (∑ i : Fin 16, (voiceStep (eraseSynth s) ((eraseSynth s).voices i)).2 *
        (PAN_SCALE - if (i : ℕ) % 2 = 0 then PAN_LEFT else PAN_RIGHT)) =
      ∑ i : Fin 16, (voiceStep s (s.voices i)).2 *
        (PAN_SCALE - if (i : ℕ) % 2 = 0 then PAN_LEFT else PAN_RIGHT) :=
    Finset.sum_congr rfl (fun i _ => by
      rw [show voiceStep (eraseSynth s) ((eraseSynth s).voices i) =
        (eraseVoice (voiceStep s (s.voices i)).1, (voiceStep s (s.voices i)).2) from hstep i])
  have hr : (∑ i : Fin 16, (voiceStep (eraseSynth s) ((eraseSynth s).voices i)).2 *
        (PAN_SCALE + if (i : ℕ) % 2 = 0 then PAN_LEFT else PAN_RIGHT)) =
      ∑ i : Fin 16, (voiceStep s (s.voices i)).2 *
        (PAN_SCALE + if (i : ℕ) % 2 = 0 then PAN_LEFT else PAN_RIGHT) :=
    Finset.sum_congr rfl (fun i _ => by
      rw [show voiceStep (eraseSynth s) ((eraseSynth s).voices i) =
        (eraseVoice (voiceStep s (s.voices i)).1, (voiceStep s (s.voices i)).2) from hstep i])
  constructor
  · simp only [generateSample]
    show ({ s with voices := fun i => (voiceStep (eraseSynth s) ((eraseSynth s).voices i)).1 } : Synth) =
      { s with voices := fun i => eraseVoice ((voiceStep s (s.voices i)).1) }
    congr 1
    funext i
    exact congrArg Prod.fst (hstep i)
  · simp only [generateSample]
    rw [hl, hr]

/-- Free-voice search only reads the active flags. -/
theorem findFreeVoice_erase (s : Synth) : findFreeVoice (eraseSynth s) = findFreeVoice s := rfl

/-- releaseVoice commutes with velocity erasure. -/
theorem eraseSynth_releaseVoice (s : Synth) (x : ℤ) :
    eraseSynth (releaseVoice s x) = releaseVoice (eraseSynth s) x := by
  unfold releaseVoice
  split_ifs with h
  · simp only [eraseSynth]
    congr 1
    funext j
    by_cases hj : j = (⟨x.toNat, by omega⟩ : Fin 16)
    · subst hj
      rw [Function.update_same, Function.update_same]
      rfl
    · rw [Function.update_noteq hj, Function.update_noteq hj]
  · rfl

/-- Voice initialization commutes with velocity erasure: the incoming
velocity lands only in the erased field. -/
theorem eraseSynth_noteOnAt (s : Synth) (i : Fin 16) (note : ℤ) (vel : ℝ) :
    eraseSynth (noteOnAt s i note vel) = noteOnAt (eraseSynth s) i note 1 := by
  unfold noteOnAt
  simp only [eraseSynth]
  congr 1
  funext j
  by_cases hj : j = i
  · subst hj
    rw [Function.update_same, Function.update_same]
    rfl
  · rw [Function.update_noteq hj, Function.update_noteq hj]

/-- noteOn calls with the same note produce erasure-equal states from
erasure-equal states, whatever their velocity arguments. -/
theorem eraseSynth_noteOn_congr (s1 s2 : Synth) (h : eraseSynth s1 = eraseSynth s2)
    (note : ℤ) (v1 v2 : ℝ) :
    eraseSynth (noteOn s1 note v1) = eraseSynth (noteOn s2 note v2) := by
  have e1 : eraseSynth (noteOn s1 note v1) = noteOn (eraseSynth s1) note 1 := by
    unfold noteOn
    rw [findFreeVoice_erase]
    cases hf : findFreeVoice s1
    case none => rw [eraseSynth_noteOnAt, eraseSynth_releaseVoice]
    case some i => rw [eraseSynth_noteOnAt]
  have e2 : eraseSynth (noteOn s2 note v2) = noteOn (eraseSynth s2) note 1 := by
    unfold noteOn
    rw [findFreeVoice_erase]
    cases hf : findFreeVoice s2
    case none => rw [eraseSynth_noteOnAt, eraseSynth_releaseVoice]
    case some i => rw [eraseSynth_noteOnAt]
  rw [e1, e2, h]

/-- noteOff commutes with velocity erasure. -/
theorem eraseSynth_noteOff (s : Synth) (note : ℤ) :
    eraseSynth (noteOff s note) = noteOff (eraseSynth s) note := by
  unfold noteOff
  simp only [eraseSynth]
  congr 1
  funext j
  by_cases hj : (s.voices j).active = true ∧ (s.voices j).note = note
  · rw [if_pos hj, if_pos (show (eraseVoice (s.voices j)).active = true ∧
      (eraseVoice (s.voices j)).note = note from hj)]
    rfl
  · rw [if_neg hj, if_neg (show ¬ ((eraseVoice (s.voices j)).active = true ∧
      (eraseVoice (s.voices j)).note = note) from hj)]

/-- Two command sequences that are similar (equal except for noteOn
velocities), run from erasure-equal states, produce identical output
streams. -/
theorem runOutputs_erase (cs1 cs2 : List Cmd) (hc : List.Forall₂ Cmd.Similar cs1 cs2) :
    ∀ s1 s2 : Synth, eraseSynth s1 = eraseSynth s2 → runOutputs s1 cs1 = runOutputs s2 cs2 := by
  induction hc with
  | nil => intro s1 s2 _; rfl
  | cons hsim _ ih =>
      intro s1 s2 h
      rename_i c1 c2 cs1t cs2t _
      cases c1 <;> cases c2 <;> simp only [Cmd.Similar] at hsim
      case cmdNoteOn.cmdNoteOn n1 v1 n2 v2 =>
        subst hsim
        simp only [runOutputs, execCmd, List.nil_append]
        exact ih _ _ (eraseSynth_noteOn_congr s1 s2 h n1 v1 v2)
      case cmdNoteOff.cmdNoteOff n1 n2 =>
        subst hsim
        simp only [runOutputs, execCmd, List.nil_append]
        refine ih _ _ ?_
        rw [eraseSynth_noteOff, eraseSynth_noteOff, h]
      case cmdTick.cmdTick =>
        simp only [runOutputs, execCmd]
        have hout : (generateSample s1).2 = (generateSample s2).2 := by
          rw [← (generateSample_erase s1).2, ← (generateSample_erase s2).2, h]
        have hst : eraseSynth (generateSample s1).1 = eraseSynth (generateSample s2).1 := by
          rw [← (generateSample_erase s1).1, ← (generateSample_erase s2).1, h]
        rw [hout]
        exact congrArg _ (ih _ _ hst)

/-- Voice initialization never writes the per-operator velocity
fields. -/
theorem noteOnAt_op_velocity (s : Synth) (i : Fin 16) (note : ℤ) (vel : ℝ)
    (j : Fin 16) (op : Fin 6) :
    (((noteOnAt s i note vel).voices j).operators op).velocity =
      ((s.voices j).operators op).velocity := by
  simp only [noteOnAt]
  by_cases hj : j = i
  · subst hj
    rw [Function.update_same]
  · rw [Function.update_noteq hj]

/-- releaseVoice never writes the per-operator velocity fields. -/
theorem releaseVoice_op_velocity (s : Synth) (x : ℤ) (j : Fin 16) (op : Fin 6) :
    (((releaseVoice s x).voices j).operators op).velocity =
      ((s.voices j).operators op).velocity := by
  simp only [releaseVoice]
  split_ifs with h
  · dsimp only
    by_cases hj : j = (⟨x.toNat, by omega⟩ : Fin 16)
    · subst hj
      rw [Function.update_same]
    · rw [Function.update_noteq hj]
  · rfl

/-- C10: the generated audio is independent of the velocity argument of
noteOn.  noteOn stores the velocity only in the Voice velocity field
and never copies it into any of the six per-operator velocity fields
(which generateOperatorOutput reads); consequently two command
sequences that are identical except for the velocity values passed to
noteOn produce identical output sample sequences from the same start
state. -/
theorem noteOn_velocity_noninterference :
    (∀ (s : Synth) (note : ℤ) (vel : ℝ) (i : Fin 16) (op : Fin 6),
       (((noteOn s note vel).voices i).operators op).velocity =
         ((s.voices i).operators op).velocity) ∧
    (∀ (s : Synth) (cs1 cs2 : List Cmd), List.Forall₂ Cmd.Similar cs1 cs2 →
       runOutputs s cs1 = runOutputs s cs2) := by
  constructor
  · intro s note vel i op
    unfold noteOn
    cases hf : findFreeVoice s
    case none =>
      exact (noteOnAt_op_velocity (releaseVoice s 0) 0 note vel i op).trans
        (releaseVoice_op_velocity s 0 i op)
    case some j =>
      exact noteOnAt_op_velocity s j note vel i op
  · intro s cs1 cs2 hc
    exact runOutputs_erase cs1 cs2 hc s s rfl

/-- Witness for C10: two runs that differ only in the noteOn velocity
(1 versus 1/2) on a fresh engine produce the same stereo output. -/
theorem noteOn_velocity_noninterference_witness :
    List.Forall₂ Cmd.Similar
      [Cmd.cmdNoteOn 60 1, Cmd.cmdTick, Cmd.cmdNoteOff 60, Cmd.cmdTick]
      [Cmd.cmdNoteOn 60 (1/2), Cmd.cmdTick, Cmd.cmdNoteOff 60, Cmd.cmdTick] ∧
    runOutputs (mkSynth 44100) [Cmd.cmdNoteOn 60 1, Cmd.cmdTick, Cmd.cmdNoteOff 60, Cmd.cmdTick] =
      runOutputs (mkSynth 44100) [Cmd.cmdNoteOn 60 (1/2), Cmd.cmdTick, Cmd.cmdNoteOff 60, Cmd.cmdTick] := by
  have hsim : List.Forall₂ Cmd.Similar
      [Cmd.cmdNoteOn 60 1, Cmd.cmdTick, Cmd.cmdNoteOff 60, Cmd.cmdTick]
      [Cmd.cmdNoteOn 60 (1/2), Cmd.cmdTick, Cmd.cmdNoteOff 60, Cmd.cmdTick] := by
    refine List.Forall₂.cons rfl (List.Forall₂.cons trivial
      (List.Forall₂.cons rfl (List.Forall₂.cons trivial List.Forall₂.nil)))
  exact ⟨hsim, noteOn_velocity_noninterference.2 (mkSynth 44100) _ _ hsim⟩

end

end toybasic
